import Mathlib

/-!
# ns-3 IPv4 static routing: a shallow embedding of `ipv4-static-routing.cc`

The development embeds `src/internet/model/ipv4-static-routing.cc`:
the unicast lookup (`LookupStatic`, longest mask, then metric, then ECMP),
the flow hash (`HashHeaders`), the multicast lookup, `RouteOutput` and
`RouteInput`, the table accessors and the lifecycle hooks.

Conventions.
* `Ipv4Address::Get ()` and `Ipv4Mask::Get ()` are natural numbers; 32-bit
  wrap-around is written `% 2 ^ 32` where the C++ arithmetic can overflow.
* `Ptr<T>` is `Option T`, the null pointer being `none`.
* The engine is modelled once it is bound to its host stack: `m_ipv4` is the
  stack handed to `SetIpv4`, given as a record of the queries the engine makes.
* `NS_ABORT_MSG_IF`, `NS_ASSERT` and the exception of `std::vector::at` end a
  call with a `Fault`.
* Callbacks are recorded as the list of invocations made by the call.
-/

namespace ns3

/-! ## Constants -/

/-- Protocol number of TCP, `TCP_PROT_NUMBER` (line 50). -/
def TCP_PROT_NUMBER : Nat := 6

/-- Protocol number of UDP, `UDP_PROT_NUMBER` (line 51). -/
def UDP_PROT_NUMBER : Nat := 17

/-- The literal `0xffffffff` to which `shortest_metric` is set (lines 304, 336). -/
def UINT32_MAX : Nat := 0xffffffff

/-- Modelled from the spec: `Ipv4::IF_ANY`, the sentinel interface index that
stands for any input interface; its declaration (`ipv4.h`) is not among the
sources, the value is the all-ones 32-bit index. -/
def IF_ANY : Nat := 0xffffffff

/-- Modelled from the spec: `Ipv4MulticastRoute::MAX_TTL`; its declaration
(`ipv4-route.h`) is not among the sources. -/
def MAX_TTL : Nat := 255

/-! ## Addresses and masks (`ipv4-address.h`, not among the sources) -/

/-- Modelled from the spec: `Ipv4Address::IsLocalMulticast`, membership in
`224.0.0.0/24` (link-local multicast). -/
def IsLocalMulticast (a : Nat) : Bool := (a &&& 0xffffff00) == 0xe0000000

/-- Modelled from the spec: `Ipv4Address::IsMulticast`, membership in
`224.0.0.0/4`. -/
def IsMulticast (a : Nat) : Bool := (a &&& 0xf0000000) == 0xe0000000

/-- Modelled from the spec: `Ipv4Address::IsBroadcast`, equality with
`255.255.255.255`. -/
def IsBroadcast (a : Nat) : Bool := a == 0xffffffff

/-- Modelled from the spec: `Ipv4Address::CombineMask`, the address ANDed with
the mask. -/
def CombineMask (a mask : Nat) : Nat := a &&& mask

/-- Modelled from the spec: `Ipv4Mask::IsMatch (a, b)`, the mask matches when
both addresses agree on the masked bits. -/
def IsMatch (mask a b : Nat) : Bool := (a &&& mask) == (b &&& mask)

/-- Loop of `Ipv4Mask::GetPrefixLength`: shift the 32-bit mask left until it is
zero, counting the shifts. -/
def GetPrefixLengthLoop : Nat → Nat → Nat → Nat
  | 0, _, tmp => tmp
  | fuel + 1, mask, tmp =>
    if mask = 0 then tmp else GetPrefixLengthLoop fuel ((mask <<< 1) % 2 ^ 32) (tmp + 1)

/-- Modelled from the spec: `Ipv4Mask::GetPrefixLength`, the length of the
mask; for a contiguous mask of `n` leading ones this is `n`. Thirty-two
shifts empty a 32-bit mask. -/
def GetPrefixLength (mask : Nat) : Nat := GetPrefixLengthLoop 32 mask 0

/-- Modelled from the spec: the default-constructed `Ipv4Address ()`, the zero address
against which the lifecycle hooks test that a local address is set ("non-zero"). -/
def Ipv4Address.defaultValue : Nat := 0

/-- Modelled from the spec: `Ipv4Address::GetZero ()`, the address `0.0.0.0`. -/
def Ipv4Address.GetZero : Nat := 0

/-- Modelled from the spec: the default-constructed `Ipv4Mask ()`, the zero mask
against which the lifecycle hooks test that a mask is set. -/
def Ipv4Mask.defaultValue : Nat := 0

/-- Modelled from the spec: `Ipv4Mask::GetZero ()`, the zero mask. -/
def Ipv4Mask.GetZero : Nat := 0

/-- Modelled from the spec: `Ipv4Mask::GetOnes ()`, the all-ones mask. -/
def Ipv4Mask.GetOnes : Nat := 0xffffffff

/-! ## Route entries (`ipv4-routing-table-entry.h`, not among the sources) -/

/-- Modelled from the spec: `Ipv4RoutingTableEntry`, the stored fields of a
network route (`NetworkRouteEntry` of the data model). -/
structure Ipv4RoutingTableEntry where
  m_dest : Nat
  m_destNetworkMask : Nat
  m_gateway : Nat
  m_interface : Nat
deriving DecidableEq, Repr

namespace Ipv4RoutingTableEntry

/-- Accessor `GetDest`. -/
def GetDest (e : Ipv4RoutingTableEntry) : Nat := e.m_dest

/-- Accessor `GetDestNetwork`. -/
def GetDestNetwork (e : Ipv4RoutingTableEntry) : Nat := e.m_dest

/-- Accessor `GetDestNetworkMask`. -/
def GetDestNetworkMask (e : Ipv4RoutingTableEntry) : Nat := e.m_destNetworkMask

/-- Accessor `GetGateway`. -/
def GetGateway (e : Ipv4RoutingTableEntry) : Nat := e.m_gateway

/-- Accessor `GetInterface`. -/
def GetInterface (e : Ipv4RoutingTableEntry) : Nat := e.m_interface

/-- Modelled from the spec: `CreateNetworkRouteTo (network, mask, nextHop,
interface)`. -/
def CreateNetworkRouteTo (network mask nextHop interface : Nat) : Ipv4RoutingTableEntry :=
  { m_dest := network, m_destNetworkMask := mask, m_gateway := nextHop, m_interface := interface }

/-- Modelled from the spec: `CreateNetworkRouteTo (network, mask, interface)`, the
overload without next hop: the gateway is `0.0.0.0`. -/
def CreateNetworkRouteToInterface (network mask interface : Nat) : Ipv4RoutingTableEntry :=
  { m_dest := network, m_destNetworkMask := mask, m_gateway := Ipv4Address.GetZero,
    m_interface := interface }

/-- Modelled from the spec: `IsHost`, the route is a host route when its mask is the
all-ones mask. -/
def IsHost (e : Ipv4RoutingTableEntry) : Bool := e.m_destNetworkMask == Ipv4Mask.GetOnes

/-- Modelled from the spec: `IsNetwork`, the route is network-typed when it is not a
host route. -/
def IsNetwork (e : Ipv4RoutingTableEntry) : Bool := !e.IsHost

/-- Modelled from the spec: the default-constructed `Ipv4RoutingTableEntry ()`, the
empty sentinel entry. -/
def emptyEntry : Ipv4RoutingTableEntry :=
  { m_dest := Ipv4Address.defaultValue, m_destNetworkMask := Ipv4Mask.defaultValue,
    m_gateway := Ipv4Address.defaultValue, m_interface := 0 }

end Ipv4RoutingTableEntry

/-- Modelled from the spec: `Ipv4MulticastRoutingTableEntry`
(`MulticastRouteEntry` of the data model). -/
structure Ipv4MulticastRoutingTableEntry where
  m_origin : Nat
  m_group : Nat
  m_inputInterface : Nat
  m_outputInterfaces : List Nat
deriving DecidableEq, Repr

namespace Ipv4MulticastRoutingTableEntry

/-- Accessor `GetOrigin`. -/
def GetOrigin (e : Ipv4MulticastRoutingTableEntry) : Nat := e.m_origin

/-- Accessor `GetGroup`. -/
def GetGroup (e : Ipv4MulticastRoutingTableEntry) : Nat := e.m_group

/-- Accessor `GetInputInterface`. -/
def GetInputInterface (e : Ipv4MulticastRoutingTableEntry) : Nat := e.m_inputInterface

end Ipv4MulticastRoutingTableEntry

/-! ## Host stack, devices, headers, packets -/

/-- A network device handle: `id` is the identity of the pointed-to object,
`ifIndex` the value of `NetDevice::GetIfIndex`. -/
structure NetDevice where
  id : Nat
  ifIndex : Nat
deriving DecidableEq, Repr

/-- Accessor `NetDevice::GetIfIndex`. -/
def NetDevice.GetIfIndex (d : NetDevice) : Nat := d.ifIndex

/-- Modelled from the spec: `Ipv4InterfaceAddress`, the tuple
`(local, mask, broadcast, isSecondary)` returned by `getAddress`. -/
structure Ipv4InterfaceAddress where
  m_local : Nat
  m_mask : Nat
  m_broadcast : Nat
  m_secondary : Bool
deriving DecidableEq, Repr

namespace Ipv4InterfaceAddress

/-- Accessor `GetLocal`. -/
def GetLocal (a : Ipv4InterfaceAddress) : Nat := a.m_local

/-- Accessor `GetMask`. -/
def GetMask (a : Ipv4InterfaceAddress) : Nat := a.m_mask

/-- Accessor `GetBroadcast`. -/
def GetBroadcast (a : Ipv4InterfaceAddress) : Nat := a.m_broadcast

/-- Accessor `IsSecondary`. -/
def IsSecondary (a : Ipv4InterfaceAddress) : Bool := a.m_secondary

end Ipv4InterfaceAddress

/-- Modelled from the spec: the host IPv4 stack capability consumed by the
engine (`m_ipv4`), one field per query of the external interface. -/
structure Ipv4 where
  GetNInterfaces : Nat
  IsUp : Nat → Bool
  IsForwarding : Nat → Bool
  GetNAddresses : Nat → Nat
  GetAddress : Nat → Nat → Ipv4InterfaceAddress
  GetNetDevice : Nat → Option NetDevice
  GetInterfaceForDevice : Option NetDevice → Int

/-- The fields of `Ipv4Header` read by the engine. -/
structure Ipv4Header where
  m_source : Nat
  m_destination : Nat
  m_protocol : Nat
deriving DecidableEq, Repr

namespace Ipv4Header

/-- Accessor `GetSource ().Get ()`. -/
def GetSource (h : Ipv4Header) : Nat := h.m_source

/-- Accessor `GetDestination ()`. -/
def GetDestination (h : Ipv4Header) : Nat := h.m_destination

/-- Accessor `GetProtocol ()`. -/
def GetProtocol (h : Ipv4Header) : Nat := h.m_protocol

end Ipv4Header

/-- The ports of a transport header obtained by `PeekHeader`. -/
structure TransportHeader where
  m_sourcePort : Nat
  m_destinationPort : Nat
deriving DecidableEq, Repr

namespace TransportHeader

/-- Accessor `GetSourcePort`. -/
def GetSourcePort (t : TransportHeader) : Nat := t.m_sourcePort

/-- Accessor `GetDestinationPort`. -/
def GetDestinationPort (t : TransportHeader) : Nat := t.m_destinationPort

end TransportHeader

/-- The payload handle: what `PeekHeader` yields when asked for a `UdpHeader`
and when asked for a `TcpHeader`. -/
structure Packet where
  peekUdpHeader : TransportHeader
  peekTcpHeader : TransportHeader
deriving DecidableEq, Repr

/-- Result of the unicast lookup, `Ipv4Route`. -/
structure Ipv4Route where
  m_dest : Nat
  m_source : Nat
  m_gateway : Nat
  m_outputDevice : Option NetDevice
deriving DecidableEq, Repr

/-- Modelled from the spec: `Ipv4MulticastRoute::SetOutputTtl (oif, ttl)` on the
per-output-interface TTL map, `m_ttls[oif] = ttl`: the binding of `oif` is
replaced when there is one and added otherwise. -/
def SetOutputTtl : List (Nat × Nat) → Nat → Nat → List (Nat × Nat)
  | [], oif, ttl => [(oif, ttl)]
  | (k, v) :: rest, oif, ttl =>
    if k = oif then (k, ttl) :: rest else (k, v) :: SetOutputTtl rest oif ttl

/-- Reading the TTL map at an interface index: the TTL bound to it, if any. -/
def GetOutputTtl : List (Nat × Nat) → Nat → Option Nat
  | [], _ => none
  | (k, v) :: rest, oif => if k = oif then some v else GetOutputTtl rest oif

/-- Result of the multicast lookup, `Ipv4MulticastRoute`. -/
structure Ipv4MulticastRoute where
  m_group : Nat
  m_origin : Nat
  m_parent : Nat
  m_ttls : List (Nat × Nat)
deriving DecidableEq, Repr

/-- The two codes of `Socket::SocketErrno` the engine uses. -/
inductive SocketErrno where
  | ERROR_NOTERROR
  | ERROR_NOROUTETOHOST
deriving DecidableEq, Repr

/-- Ways a call ends without returning. -/
inductive Fault where
  | abortMsg
  | assertFailed
  | outOfRange
deriving DecidableEq, Repr

/-- One callback invocation made by `RouteInput`. -/
inductive CallbackEvent where
  | ucb (route : Ipv4Route) (p : Packet) (header : Ipv4Header)
  | mcb (mroute : Ipv4MulticastRoute) (p : Packet) (header : Ipv4Header)
  | lcb (p : Packet) (header : Ipv4Header) (iif : Nat)
  | ecb (p : Packet) (header : Ipv4Header) (err : SocketErrno)
deriving DecidableEq, Repr

/-! ## The engine -/

/-- State of `Ipv4StaticRouting`: the network routes with their metrics, the
multicast routes, the bound host stack, the two ECMP attributes and the random
variable (`GetInteger (min, max)`). -/
structure Ipv4StaticRouting where
  m_networkRoutes : List (Ipv4RoutingTableEntry × Nat)
  m_multicastRoutes : List Ipv4MulticastRoutingTableEntry
  m_ipv4 : Ipv4
  m_randomEcmpRouting : Bool
  m_flowEcmpRouting : Bool
  m_rand : Nat → Nat → Nat

namespace Ipv4StaticRouting

/-- The flow hash `HashHeaders` (lines 243-282): 32-bit sum of source, destination and
protocol, plus both ports for UDP and TCP; every addition wraps. -/
def HashHeaders (header : Ipv4Header) (ipPayload : Packet) : Nat :=
  let tupleValue := ((header.GetSource + header.GetDestination) % 2 ^ 32
                      + header.GetProtocol) % 2 ^ 32
  if header.GetProtocol = UDP_PROT_NUMBER then
    let udpHeader := ipPayload.peekUdpHeader
    let tupleValue := (tupleValue + udpHeader.GetSourcePort) % 2 ^ 32
    (tupleValue + udpHeader.GetDestinationPort) % 2 ^ 32
  else if header.GetProtocol = TCP_PROT_NUMBER then
    let tcpHeader := ipPayload.peekTcpHeader
    let tupleValue := (tupleValue + tcpHeader.GetSourcePort) % 2 ^ 32
    (tupleValue + tcpHeader.GetDestinationPort) % 2 ^ 32
  else
    tupleValue

/-- The loop of `SourceAddressSelection`, lines 857-867, over the address
indices still to visit. -/
def SourceAddressSelectionLoop (ipv4 : Ipv4) (interfaceIdx dest candidate : Nat) :
    List Nat → Nat
  | [] => candidate
  | i :: rest =>
    let test := ipv4.GetAddress interfaceIdx i
    if CombineMask test.GetLocal test.GetMask = CombineMask dest test.GetMask
        ∧ test.IsSecondary = false then
      test.GetLocal
    else
      SourceAddressSelectionLoop ipv4 interfaceIdx dest candidate rest

/-- The method `SourceAddressSelection` (lines 844-869). -/
def SourceAddressSelection (s : Ipv4StaticRouting) (interfaceIdx dest : Nat) : Nat :=
  if s.m_ipv4.GetNAddresses interfaceIdx = 1 then
    (s.m_ipv4.GetAddress interfaceIdx 0).GetLocal
  else
    let candidate := (s.m_ipv4.GetAddress interfaceIdx 0).GetLocal
    SourceAddressSelectionLoop s.m_ipv4 interfaceIdx dest candidate
      (List.range (s.m_ipv4.GetNAddresses interfaceIdx))

/-- Local variables of the scan of `LookupStatic` (lines 303-306). -/
structure ScanState where
  longest_mask : Nat
  shortest_metric : Nat
  allRoutes : List Ipv4RoutingTableEntry
deriving DecidableEq, Repr

/-- Initial values of the scan variables (lines 303-306). -/
def scanInit : ScanState :=
  { longest_mask := 0, shortest_metric := UINT32_MAX, allRoutes := [] }

/-- Body of the scan loop of `LookupStatic` (lines 312-351) for one list node
`(route, metric)`. -/
def scanStep (ipv4 : Ipv4) (destination : Nat) (oif : Option NetDevice)
    (st : ScanState) (i : Ipv4RoutingTableEntry × Nat) : ScanState :=
  let j := i.1
  let metric := i.2
  let mask := j.GetDestNetworkMask
  let masklen := GetPrefixLength mask
  let entry := j.GetDestNetwork
  if IsMatch mask destination entry then
    if oif ≠ none ∧ oif ≠ ipv4.GetNetDevice j.GetInterface then
      st
    else if masklen < st.longest_mask then
      st
    else
      let st1 : ScanState :=
        if masklen > st.longest_mask then
          { st with shortest_metric := UINT32_MAX, allRoutes := [] }
        else st
      let st2 : ScanState := { st1 with longest_mask := masklen }
      if metric > st2.shortest_metric then
        st2
      else
        let st3 : ScanState :=
          if metric < st2.shortest_metric then { st2 with allRoutes := [] } else st2
        { st3 with shortest_metric := metric, allRoutes := st3.allRoutes ++ [j] }
  else
    st

/-- The scan loop of `LookupStatic` (lines 308-352) over the whole list. -/
def scanRoutes (s : Ipv4StaticRouting) (destination : Nat) (oif : Option NetDevice) :
    ScanState :=
  s.m_networkRoutes.foldl (scanStep s.m_ipv4 destination oif) scanInit

/-- Lines 303-375 of `LookupStatic`: the scan, the empty check and the choice
of `allRoutes.at (selectIndex)`; `none` is the null return of line 356. -/
def selectRoute (s : Ipv4StaticRouting) (header : Ipv4Header) (ipPayload : Packet)
    (oif : Option NetDevice) : Except Fault (Option Ipv4RoutingTableEntry) :=
  let allRoutes := (scanRoutes s header.GetDestination oif).allRoutes
  if allRoutes.length = 0 then
    .ok none
  else
    let selectIndex : Nat :=
      if s.m_randomEcmpRouting then
        s.m_rand 0 (allRoutes.length - 1)
      else if s.m_flowEcmpRouting ∧ allRoutes.length > 1 then
        (HashHeaders header ipPayload) &&& allRoutes.length
      else
        0
    match allRoutes.get? selectIndex with
    | some route => .ok (some route)
    | none => .error Fault.outOfRange

/-- Lines 376-386 of `LookupStatic`: the `Ipv4Route` built from the selected
entry. -/
def makeRoute (s : Ipv4StaticRouting) (route : Ipv4RoutingTableEntry) : Ipv4Route :=
  let interfaceIdx := route.GetInterface
  { m_dest := route.GetDest
    m_source := SourceAddressSelection s interfaceIdx route.GetDest
    m_gateway := route.GetGateway
    m_outputDevice := s.m_ipv4.GetNetDevice interfaceIdx }

/-- Unicast `LookupStatic` (lines 284-387). -/
def LookupStatic (s : Ipv4StaticRouting) (header : Ipv4Header) (ipPayload : Packet)
    (oif : Option NetDevice) : Except Fault (Option Ipv4Route) :=
  if s.m_randomEcmpRouting ∧ s.m_flowEcmpRouting then
    .error Fault.abortMsg
  else if IsLocalMulticast header.GetDestination then
    match oif with
    | none => .error Fault.assertFailed
    | some dev =>
      .ok (some { m_dest := header.GetDestination
                  m_gateway := 0
                  m_outputDevice := some dev
                  m_source := (s.m_ipv4.GetAddress dev.GetIfIndex 0).GetLocal })
  else
    match selectRoute s header ipPayload oif with
    | .error f => .error f
    | .ok none => .ok none
    | .ok (some route) => .ok (some (makeRoute s route))

/-- Inner loop of the multicast `LookupStatic` (lines 426-433): the TTL of every
non-zero output interface is set to `MAX_TTL - 1`. -/
def setOutputTtls (outputInterfaces : List Nat) (ttls : List (Nat × Nat)) : List (Nat × Nat) :=
  outputInterfaces.foldl
    (fun m o => if o ≠ 0 then SetOutputTtl m o (MAX_TTL - 1) else m) ttls

/-- Multicast `LookupStatic` (lines 389-439) over the routes still to visit. -/
def LookupStaticMulticastLoop (origin group interface : Nat) :
    List Ipv4MulticastRoutingTableEntry → Option Ipv4MulticastRoute
  | [] => none
  | route :: rest =>
    if group = route.GetGroup ∧ (interface = IF_ANY ∨ interface = route.GetInputInterface) then
      some { m_group := route.GetGroup
             m_origin := route.GetOrigin
             m_parent := route.GetInputInterface
             m_ttls := setOutputTtls route.m_outputInterfaces [] }
    else
      LookupStaticMulticastLoop origin group interface rest

/-- Multicast `LookupStatic` (lines 389-439). -/
def LookupStaticMulticast (s : Ipv4StaticRouting) (origin group interface : Nat) :
    Option Ipv4MulticastRoute :=
  LookupStaticMulticastLoop origin group interface s.m_multicastRoutes

/-- The method `RouteOutput` (lines 544-572): the route and the value left in `sockerr`;
the multicast test of lines 552-561 only logs. -/
def RouteOutput (s : Ipv4StaticRouting) (p : Packet) (header : Ipv4Header)
    (oif : Option NetDevice) : Except Fault (Option Ipv4Route × SocketErrno) :=
  match LookupStatic s header p oif with
  | .error f => .error f
  | .ok (some rtentry) => .ok (some rtentry, SocketErrno.ERROR_NOTERROR)
  | .ok none => .ok (none, SocketErrno.ERROR_NOROUTETOHOST)

/-- Inner loop of `RouteInput` (lines 622-646) over the address indices of
interface `j` still to visit; `some` is an early return of the call. -/
def routeInputAddresses (ipv4 : Ipv4) (p : Packet) (ipHeader : Ipv4Header) (iif j : Nat) :
    List Nat → Option (List CallbackEvent × Bool)
  | [] => none
  | i :: rest =>
    let iaddr := ipv4.GetAddress j i
    let addr := iaddr.GetLocal
    if addr = ipHeader.GetDestination then
      some ([CallbackEvent.lcb p ipHeader iif], true)
    else if ipHeader.GetDestination = iaddr.GetBroadcast then
      some ([CallbackEvent.lcb p ipHeader iif], true)
    else
      routeInputAddresses ipv4 p ipHeader iif j rest

/-- Outer loop of `RouteInput` (lines 620-647) over the interface indices still
to visit. -/
def routeInputInterfaces (ipv4 : Ipv4) (p : Packet) (ipHeader : Ipv4Header) (iif : Nat) :
    List Nat → Option (List CallbackEvent × Bool)
  | [] => none
  | j :: rest =>
    match routeInputAddresses ipv4 p ipHeader iif j (List.range (ipv4.GetNAddresses j)) with
    | some r => some r
    | none => routeInputInterfaces ipv4 p ipHeader iif rest

/-- The method `RouteInput` (lines 574-668): the callbacks invoked, in order, and the
returned boolean. The assertion of line 583 is the first test; the broadcast test of
lines 606-611 only logs and falls through to the unicast part. -/
def RouteInput (s : Ipv4StaticRouting) (p : Packet) (ipHeader : Ipv4Header)
    (idev : Option NetDevice) : Except Fault (List CallbackEvent × Bool) :=
  if s.m_ipv4.GetInterfaceForDevice idev < 0 then
    .error Fault.assertFailed
  else
    let iif := (s.m_ipv4.GetInterfaceForDevice idev).toNat
    if IsMulticast ipHeader.GetDestination then
      match LookupStaticMulticast s ipHeader.GetSource ipHeader.GetDestination iif with
      | some mrtentry => .ok ([CallbackEvent.mcb mrtentry p ipHeader], true)
      | none => .ok ([], false)
    else
      match routeInputInterfaces s.m_ipv4 p ipHeader iif (List.range s.m_ipv4.GetNInterfaces) with
      | some r => .ok r
      | none =>
        if s.m_ipv4.IsForwarding iif = false then
          .ok ([CallbackEvent.ecb p ipHeader SocketErrno.ERROR_NOROUTETOHOST], false)
        else
          match LookupStatic s ipHeader p none with
          | .error f => .error f
          | .ok (some rtentry) => .ok ([CallbackEvent.ucb rtentry p ipHeader], true)
          | .ok none => .ok ([], false)

/-- The method `AddNetworkRouteTo` with a next hop (lines 83-97): the route is pushed at the
back of the list with its metric. -/
def AddNetworkRouteTo (s : Ipv4StaticRouting) (network networkMask nextHop interface metric : Nat) :
    Ipv4StaticRouting :=
  let route := Ipv4RoutingTableEntry.CreateNetworkRouteTo network networkMask nextHop interface
  { s with m_networkRoutes := s.m_networkRoutes ++ [(route, metric)] }

/-- The overload of `AddNetworkRouteTo` without next hop (lines 99-111). -/
def AddNetworkRouteToInterface (s : Ipv4StaticRouting) (network networkMask interface metric : Nat) :
    Ipv4StaticRouting :=
  let route := Ipv4RoutingTableEntry.CreateNetworkRouteToInterface network networkMask interface
  { s with m_networkRoutes := s.m_networkRoutes ++ [(route, metric)] }

/-- The method `SetDefaultRoute` (lines 132-139). -/
def SetDefaultRoute (s : Ipv4StaticRouting) (nextHop interface metric : Nat) : Ipv4StaticRouting :=
  AddNetworkRouteTo s 0 Ipv4Mask.GetZero nextHop interface metric

/-- The method `SetDefaultMulticastRoute` (lines 157-168): `224.0.0.0/240.0.0.0` is pushed on
the list of network routes with metric 0. -/
def SetDefaultMulticastRoute (s : Ipv4StaticRouting) (outputInterface : Nat) : Ipv4StaticRouting :=
  let network := 0xe0000000
  let networkMask := 0xf0000000
  let route := Ipv4RoutingTableEntry.CreateNetworkRouteToInterface network networkMask outputInterface
  { s with m_networkRoutes := s.m_networkRoutes ++ [(route, 0)] }

/-- Loop of `GetDefaultRoute` (lines 456-474) over the nodes still to visit, with the
current `shortest_metric` and `result` (null is `none`). -/
def GetDefaultRouteLoop :
    List (Ipv4RoutingTableEntry × Nat) → Nat → Option Ipv4RoutingTableEntry →
      Option Ipv4RoutingTableEntry
  | [], _, result => result
  | i :: rest, shortest_metric, result =>
    let j := i.1
    let metric := i.2
    let mask := j.GetDestNetworkMask
    let masklen := GetPrefixLength mask
    if masklen ≠ 0 then
      GetDefaultRouteLoop rest shortest_metric result
    else if metric > shortest_metric then
      GetDefaultRouteLoop rest shortest_metric result
    else
      GetDefaultRouteLoop rest metric (some j)

/-- The method `GetDefaultRoute` (lines 448-483). -/
def GetDefaultRoute (s : Ipv4StaticRouting) : Ipv4RoutingTableEntry :=
  match GetDefaultRouteLoop s.m_networkRoutes UINT32_MAX none with
  | some result => result
  | none => Ipv4RoutingTableEntry.emptyEntry

/-- Body of the loop of `NotifyInterfaceUp` (lines 704-710) for the address index `j`; the
call of line 708 leaves the metric to its default, 0. -/
def notifyInterfaceUpStep (i : Nat) (s : Ipv4StaticRouting) (j : Nat) : Ipv4StaticRouting :=
  if (s.m_ipv4.GetAddress i j).GetLocal ≠ Ipv4Address.defaultValue ∧
      (s.m_ipv4.GetAddress i j).GetMask ≠ Ipv4Mask.defaultValue ∧
      (s.m_ipv4.GetAddress i j).GetMask ≠ Ipv4Mask.GetOnes then
    AddNetworkRouteToInterface s
      (CombineMask (s.m_ipv4.GetAddress i j).GetLocal (s.m_ipv4.GetAddress i j).GetMask)
      (s.m_ipv4.GetAddress i j).GetMask i 0
  else
    s

/-- The method `NotifyInterfaceUp` (lines 695-712). -/
def NotifyInterfaceUp (s : Ipv4StaticRouting) (i : Nat) : Ipv4StaticRouting :=
  (List.range (s.m_ipv4.GetNAddresses i)).foldl (notifyInterfaceUpStep i) s

/-- Loop of `NotifyInterfaceDown` (lines 719-730) over the nodes still to visit: a node
whose route goes through interface `i` is erased. -/
def NotifyInterfaceDownLoop (i : Nat) :
    List (Ipv4RoutingTableEntry × Nat) → List (Ipv4RoutingTableEntry × Nat)
  | [] => []
  | it :: rest =>
    if it.1.GetInterface = i then
      NotifyInterfaceDownLoop i rest
    else
      it :: NotifyInterfaceDownLoop i rest

/-- The method `NotifyInterfaceDown` (lines 714-731). -/
def NotifyInterfaceDown (s : Ipv4StaticRouting) (i : Nat) : Ipv4StaticRouting :=
  { s with m_networkRoutes := NotifyInterfaceDownLoop i s.m_networkRoutes }

/-- The method `NotifyAddAddress` (lines 733-750); the call of line 747 leaves the metric to
its default, 0. -/
def NotifyAddAddress (s : Ipv4StaticRouting) (interface : Nat) (address : Ipv4InterfaceAddress) :
    Ipv4StaticRouting :=
  if s.m_ipv4.IsUp interface = false then
    s
  else
    let networkAddress := CombineMask address.GetLocal address.GetMask
    let networkMask := address.GetMask
    if address.GetLocal ≠ Ipv4Address.defaultValue ∧ address.GetMask ≠ Ipv4Mask.defaultValue then
      AddNetworkRouteToInterface s networkAddress networkMask interface 0
    else
      s

/-- Loop of `NotifyRemoveAddress` (lines 763-777) over the nodes still to visit. -/
def NotifyRemoveAddressLoop (interface networkAddress networkMask : Nat) :
    List (Ipv4RoutingTableEntry × Nat) → List (Ipv4RoutingTableEntry × Nat)
  | [] => []
  | it :: rest =>
    if it.1.GetInterface = interface
        ∧ it.1.IsNetwork = true
        ∧ it.1.GetDestNetwork = networkAddress
        ∧ it.1.GetDestNetworkMask = networkMask then
      NotifyRemoveAddressLoop interface networkAddress networkMask rest
    else
      it :: NotifyRemoveAddressLoop interface networkAddress networkMask rest

/-- The method `NotifyRemoveAddress` (lines 751-778). -/
def NotifyRemoveAddress (s : Ipv4StaticRouting) (interface : Nat)
    (address : Ipv4InterfaceAddress) : Ipv4StaticRouting :=
  if s.m_ipv4.IsUp interface = false then
    s
  else
    let networkAddress := CombineMask address.GetLocal address.GetMask
    let networkMask := address.GetMask
    { s with
      m_networkRoutes :=
        NotifyRemoveAddressLoop interface networkAddress networkMask s.m_networkRoutes }

/-- The method `SetIpv4` (lines 780-797): the engine is bound to the stack and the up or down
notification is replayed for every interface. The assertion of line 784 (engine not bound
before, stack not null) is the obligation of the caller. -/
def SetIpv4 (s : Ipv4StaticRouting) (ipv4 : Ipv4) : Ipv4StaticRouting :=
  (List.range ipv4.GetNInterfaces).foldl
    (fun st i => if st.m_ipv4.IsUp i then NotifyInterfaceUp st i else NotifyInterfaceDown st i)
    { s with m_ipv4 := ipv4 }

/-- The method `AddHostRouteTo` with a next hop (lines 113-121). -/
def AddHostRouteTo (s : Ipv4StaticRouting) (dest nextHop interface metric : Nat) :
    Ipv4StaticRouting :=
  AddNetworkRouteTo s dest Ipv4Mask.GetOnes nextHop interface metric

/-- The overload of `AddHostRouteTo` without next hop (lines 123-130). -/
def AddHostRouteToInterface (s : Ipv4StaticRouting) (dest interface metric : Nat) :
    Ipv4StaticRouting :=
  AddNetworkRouteToInterface s dest Ipv4Mask.GetOnes interface metric

/-- The method `AddMulticastRoute` (lines 141-152). -/
def AddMulticastRoute (s : Ipv4StaticRouting) (origin group inputInterface : Nat)
    (outputInterfaces : List Nat) : Ipv4StaticRouting :=
  let route : Ipv4MulticastRoutingTableEntry :=
    { m_origin := origin, m_group := group, m_inputInterface := inputInterface,
      m_outputInterfaces := outputInterfaces }
  { s with m_multicastRoutes := s.m_multicastRoutes ++ [route] }

/-- The method `GetNMulticastRoutes` (lines 170-175). -/
def GetNMulticastRoutes (s : Ipv4StaticRouting) : Nat := s.m_multicastRoutes.length

/-- Loop of `GetMulticastRoute` (lines 187-196) over the routes still to visit, with the
counter `tmp`; `none` is the end of the loop without a return. -/
def GetMulticastRouteLoop (index : Nat) :
    List Ipv4MulticastRoutingTableEntry → Nat → Option Ipv4MulticastRoutingTableEntry
  | [], _ => none
  | i :: rest, tmp =>
    if tmp = index then some i else GetMulticastRouteLoop index rest (tmp + 1)

/-- The method `GetMulticastRoute` (lines 177-199): the assertion of line 181 comes first.
The `return 0` of line 198 is past the assertion and the loop; the model ends there with the
fault of the assertion. -/
def GetMulticastRoute (s : Ipv4StaticRouting) (index : Nat) :
    Except Fault Ipv4MulticastRoutingTableEntry :=
  if index < s.m_multicastRoutes.length then
    match GetMulticastRouteLoop index s.m_multicastRoutes 0 with
    | some route => .ok route
    | none => .error Fault.assertFailed
  else
    .error Fault.assertFailed

/-- Loop of `RemoveMulticastRoute (origin, group, inputInterface)` (lines 207-220) over the
routes still to visit: the first route equal to the key on the three fields is erased and
true is returned; the end of the list gives false. -/
def RemoveMulticastRouteKeyLoop (origin group inputInterface : Nat) :
    List Ipv4MulticastRoutingTableEntry → Bool × List Ipv4MulticastRoutingTableEntry
  | [] => (false, [])
  | route :: rest =>
    if origin = route.GetOrigin ∧ group = route.GetGroup
        ∧ inputInterface = route.GetInputInterface then
      (true, rest)
    else
      let r := RemoveMulticastRouteKeyLoop origin group inputInterface rest
      (r.1, route :: r.2)

/-- The method `RemoveMulticastRoute (origin, group, inputInterface)` (lines 201-222): the
returned boolean and the engine afterwards. -/
def RemoveMulticastRouteKey (s : Ipv4StaticRouting) (origin group inputInterface : Nat) :
    Bool × Ipv4StaticRouting :=
  let r := RemoveMulticastRouteKeyLoop origin group inputInterface s.m_multicastRoutes
  (r.1, { s with m_multicastRoutes := r.2 })

/-- Loop of `RemoveMulticastRoute (index)` (lines 229-240) over the routes still to visit,
with the counter `tmp`: the route at the index is erased; the end of the list is reached
without any assertion. -/
def RemoveMulticastRouteLoop (index : Nat) :
    List Ipv4MulticastRoutingTableEntry → Nat → List Ipv4MulticastRoutingTableEntry
  | [], _ => []
  | i :: rest, tmp =>
    if tmp = index then rest else i :: RemoveMulticastRouteLoop index rest (tmp + 1)

/-- The method `RemoveMulticastRoute (index)` (lines 224-241). -/
def RemoveMulticastRoute (s : Ipv4StaticRouting) (index : Nat) : Ipv4StaticRouting :=
  { s with m_multicastRoutes := RemoveMulticastRouteLoop index s.m_multicastRoutes 0 }

/-- The method `GetNRoutes` (lines 441-446). -/
def GetNRoutes (s : Ipv4StaticRouting) : Nat := s.m_networkRoutes.length

/-- Loop of `GetRoute` (lines 490-499) over the nodes still to visit, with the counter
`tmp`; the end of the list reaches `NS_ASSERT (false)` of line 500. -/
def GetRouteLoop (index : Nat) :
    List (Ipv4RoutingTableEntry × Nat) → Nat → Except Fault Ipv4RoutingTableEntry
  | [], _ => .error Fault.assertFailed
  | j :: rest, tmp =>
    if tmp = index then .ok j.1 else GetRouteLoop index rest (tmp + 1)

/-- The method `GetRoute` (lines 485-503). -/
def GetRoute (s : Ipv4StaticRouting) (index : Nat) : Except Fault Ipv4RoutingTableEntry :=
  GetRouteLoop index s.m_networkRoutes 0

/-- Loop of `GetMetric` (lines 510-519) over the nodes still to visit, with the counter
`tmp`; the end of the list reaches `NS_ASSERT (false)` of line 520. -/
def GetMetricLoop (index : Nat) :
    List (Ipv4RoutingTableEntry × Nat) → Nat → Except Fault Nat
  | [], _ => .error Fault.assertFailed
  | j :: rest, tmp =>
    if tmp = index then .ok j.2 else GetMetricLoop index rest (tmp + 1)

/-- The method `GetMetric` (lines 505-523). -/
def GetMetric (s : Ipv4StaticRouting) (index : Nat) : Except Fault Nat :=
  GetMetricLoop index s.m_networkRoutes 0

/-- Loop of `RemoveRoute` (lines 529-540) over the nodes still to visit, with the counter
`tmp`: the node at the index is erased; the end of the list reaches `NS_ASSERT (false)` of
line 541. -/
def RemoveRouteLoop (index : Nat) :
    List (Ipv4RoutingTableEntry × Nat) → Nat → Except Fault (List (Ipv4RoutingTableEntry × Nat))
  | [], _ => .error Fault.assertFailed
  | j :: rest, tmp =>
    if tmp = index then .ok rest
    else
      match RemoveRouteLoop index rest (tmp + 1) with
      | .ok l => .ok (j :: l)
      | .error f => .error f

/-- The method `RemoveRoute` (lines 524-542). -/
def RemoveRoute (s : Ipv4StaticRouting) (index : Nat) : Except Fault Ipv4StaticRouting :=
  match RemoveRouteLoop index s.m_networkRoutes 0 with
  | .ok l => .ok { s with m_networkRoutes := l }
  | .error f => .error f

/-! ## Specification-side predicates and example inputs -/

/-- The acceptance test applied by the scan before any comparison (lines 318-328): the
mask matches the destination and, when a constraint device is given, the interface of the
route is bound to it. -/
def isCandidate (ipv4 : Ipv4) (destination : Nat) (oif : Option NetDevice)
    (i : Ipv4RoutingTableEntry × Nat) : Bool :=
  IsMatch i.1.GetDestNetworkMask destination i.1.GetDestNetwork
    && (oif == none || oif == ipv4.GetNetDevice i.1.GetInterface)

/-- The value of `masklen` for a list node (lines 314-315). -/
def masklenOf (i : Ipv4RoutingTableEntry × Nat) : Nat :=
  GetPrefixLength i.1.GetDestNetworkMask

/-- The node is accepted by the scan, has mask length `len` and metric `metric`. -/
def tiedAt (ipv4 : Ipv4) (destination : Nat) (oif : Option NetDevice) (len metric : Nat)
    (i : Ipv4RoutingTableEntry × Nat) : Bool :=
  isCandidate ipv4 destination oif i && masklenOf i == len && i.2 == metric

/-- Invariant of the scan loop after the nodes `pre`: `longest_mask` bounds the mask
lengths of the accepted nodes, `shortest_metric` bounds the metrics at that length,
`allRoutes` holds the accepted nodes at that length and metric in order, and both bounds
are attained unless no node was accepted. -/
def ScanInv (ipv4 : Ipv4) (destination : Nat) (oif : Option NetDevice)
    (pre : List (Ipv4RoutingTableEntry × Nat)) (st : ScanState) : Prop :=
  (∀ p ∈ pre, isCandidate ipv4 destination oif p = true → masklenOf p ≤ st.longest_mask) ∧
  (∀ p ∈ pre, isCandidate ipv4 destination oif p = true → masklenOf p = st.longest_mask →
      st.shortest_metric ≤ p.2) ∧
  st.allRoutes
    = (pre.filter (tiedAt ipv4 destination oif st.longest_mask st.shortest_metric)).map Prod.fst ∧
  (((∀ p ∈ pre, isCandidate ipv4 destination oif p = false) ∧ st.longest_mask = 0
      ∧ st.shortest_metric = UINT32_MAX)
    ∨ ∃ q ∈ pre, isCandidate ipv4 destination oif q = true ∧ masklenOf q = st.longest_mask
        ∧ q.2 = st.shortest_metric)

instance (ipv4 : Ipv4) (destination : Nat) (oif : Option NetDevice)
    (pre : List (Ipv4RoutingTableEntry × Nat)) (st : ScanState) :
    Decidable (ScanInv ipv4 destination oif pre st) := by
  unfold ScanInv; infer_instance

/-- Every stored metric is a `uint32_t` value. -/
def MetricsInRange (s : Ipv4StaticRouting) : Prop :=
  ∀ p ∈ s.m_networkRoutes, p.2 ≤ UINT32_MAX

instance (s : Ipv4StaticRouting) : Decidable (MetricsInRange s) := by
  unfold MetricsInRange; infer_instance

/-- Written from the specification: the node is accepted, no accepted node of the
table has a longer mask, and no accepted node of the same mask length has a smaller metric. -/
def IsBestCandidate (ipv4 : Ipv4) (destination : Nat) (oif : Option NetDevice)
    (table : List (Ipv4RoutingTableEntry × Nat)) (p : Ipv4RoutingTableEntry × Nat) : Prop :=
  isCandidate ipv4 destination oif p = true ∧
    ∀ q ∈ table, isCandidate ipv4 destination oif q = true →
      masklenOf q ≤ masklenOf p ∧ (masklenOf q = masklenOf p → p.2 ≤ q.2)

instance (ipv4 : Ipv4) (destination : Nat) (oif : Option NetDevice)
    (table : List (Ipv4RoutingTableEntry × Nat)) (p : Ipv4RoutingTableEntry × Nat) :
    Decidable (IsBestCandidate ipv4 destination oif table p) := by
  unfold IsBestCandidate; infer_instance

/-- Written from the specification: the candidate set, the tied best nodes of the
table in insertion order. -/
def tiedCandidates (s : Ipv4StaticRouting) (destination : Nat) (oif : Option NetDevice) :
    List (Ipv4RoutingTableEntry × Nat) :=
  s.m_networkRoutes.filter
    (fun p => decide (IsBestCandidate s.m_ipv4 destination oif s.m_networkRoutes p))

/-- A host stack with four interfaces; interface `j` has the single address
`10.0.j.1/24` and the device of identity `j`. -/
def exampleStack : Ipv4 :=
  { GetNInterfaces := 4
    IsUp := fun _ => true
    IsForwarding := fun _ => true
    GetNAddresses := fun _ => 1
    GetAddress := fun j _ =>
      { m_local := 0x0a000001 + 256 * j, m_mask := 0xffffff00,
        m_broadcast := 0x0a0000ff + 256 * j, m_secondary := false }
    GetNetDevice := fun i => some { id := i, ifIndex := i }
    GetInterfaceForDevice := fun d =>
      match d with
      | some dev => (dev.id : Int)
      | none => -1 }

/-- An engine over `exampleStack` with the given network routes and flow-ECMP flag. -/
def exampleEngine (routes : List (Ipv4RoutingTableEntry × Nat)) (flow : Bool) :
    Ipv4StaticRouting :=
  { m_networkRoutes := routes, m_multicastRoutes := [], m_ipv4 := exampleStack,
    m_randomEcmpRouting := false, m_flowEcmpRouting := flow, m_rand := fun lo _ => lo }

/-- The route `10.0.0.0/8` via an interface, no gateway. -/
def net8 (interface : Nat) : Ipv4RoutingTableEntry :=
  Ipv4RoutingTableEntry.CreateNetworkRouteTo 0x0a000000 0xff000000 0 interface

/-- The route `10.1.0.0/16` via an interface, no gateway. -/
def net16 (interface : Nat) : Ipv4RoutingTableEntry :=
  Ipv4RoutingTableEntry.CreateNetworkRouteTo 0x0a010000 0xffff0000 0 interface

/-- A UDP header from `10.0.0.1` to a destination. -/
def udpHeaderTo (destination : Nat) : Ipv4Header :=
  { m_source := 0x0a000001, m_destination := destination, m_protocol := 17 }

/-- A payload whose UDP header carries the given ports. -/
def udpPacket (sourcePort destinationPort : Nat) : Packet :=
  { peekUdpHeader := ⟨sourcePort, destinationPort⟩, peekTcpHeader := ⟨0, 0⟩ }

/-- Scenario 1: `10.0.0.0/8` via interface 1 and `10.1.0.0/16` via interface 2. -/
def lpmEngine : Ipv4StaticRouting := exampleEngine [(net8 1, 0), (net16 2, 0)] false

/-- Scenario 3: `10.0.0.0/8` via interface 1 metric 10 and via interface 2 metric 5. -/
def metricEngine : Ipv4StaticRouting := exampleEngine [(net8 1, 10), (net8 2, 5)] false

/-- A table with two tied best `/16` routes after a `/16` of larger metric and a `/8`. -/
def tieEngine : Ipv4StaticRouting :=
  exampleEngine [(net16 3, 7), (net8 1, 0), (net16 1, 4), (net16 2, 4)] false

/-- The table after `SetDefaultMulticastRoute (2)`: `224.0.0.0/240.0.0.0` via
interface 2 with metric 0. -/
def defaultMulticastEngine : Ipv4StaticRouting :=
  exampleEngine [(Ipv4RoutingTableEntry.CreateNetworkRouteTo 0xe0000000 0xf0000000 0 2, 0)] false

/-- The engine whose table is restricted to the routes whose interface has device
`oif`. -/
def restrictToDevice (s : Ipv4StaticRouting) (oif : NetDevice) : Ipv4StaticRouting :=
  { s with
    m_networkRoutes :=
      s.m_networkRoutes.filter (fun e => decide (s.m_ipv4.GetNetDevice e.1.GetInterface = some oif)) }

/-- Scenario 5: two `10.0.0.0/8` routes via interfaces 1 and 2, flow ECMP enabled. -/
def flowEngine : Ipv4StaticRouting := exampleEngine [(net8 1, 0), (net8 2, 0)] true

/-- Routes `10.0.0.0/8` and `10.1.0.0/16` via interface 1 and `10.0.0.0/8` with
metric 5 via interface 2. -/
def deviceEngine : Ipv4StaticRouting :=
  exampleEngine [(net8 1, 0), (net16 1, 0), (net8 2, 5)] false

/-- The test of lines 416-419 on a multicast route: the groups are equal and the
query interface is `IF_ANY` or the input interface of the route. -/
def multicastTest (group interface : Nat) (route : Ipv4MulticastRoutingTableEntry) : Prop :=
  group = route.GetGroup ∧ (interface = IF_ANY ∨ interface = route.GetInputInterface)

instance (group interface : Nat) (route : Ipv4MulticastRoutingTableEntry) :
    Decidable (multicastTest group interface route) := by
  unfold multicastTest; infer_instance

/-- Scenario 8: one multicast route for `224.1.2.3` with input interface `IF_ANY` and
outputs 1 and 2. -/
def anyInputEngine : Ipv4StaticRouting :=
  { m_networkRoutes := []
    m_multicastRoutes := [{ m_origin := 0, m_group := 0xe0010203, m_inputInterface := IF_ANY,
                            m_outputInterfaces := [1, 2] }]
    m_ipv4 := exampleStack
    m_randomEcmpRouting := false, m_flowEcmpRouting := false, m_rand := fun lo _ => lo }

/-- Three multicast routes for `224.1.2.3` with input interfaces 3, 1 and 1. -/
def multicastEngine : Ipv4StaticRouting :=
  { m_networkRoutes := []
    m_multicastRoutes :=
      [ { m_origin := 0x0a000005, m_group := 0xe0010203, m_inputInterface := 3,
          m_outputInterfaces := [2] },
        { m_origin := 0x0a000007, m_group := 0xe0010203, m_inputInterface := 1,
          m_outputInterfaces := [2, 0, 3, 2] },
        { m_origin := 0x0a000009, m_group := 0xe0010203, m_inputInterface := 1,
          m_outputInterfaces := [1] } ]
    m_ipv4 := exampleStack
    m_randomEcmpRouting := false, m_flowEcmpRouting := false, m_rand := fun lo _ => lo }

/-- Written from the specification: a multicast route matches a query when its group equals
the query group and its input interface equals the query interface or `IF_ANY`. -/
def specMulticastMatch (group interface : Nat) (route : Ipv4MulticastRoutingTableEntry) :
    Prop :=
  route.GetGroup = group ∧
    (route.GetInputInterface = interface ∨ route.GetInputInterface = IF_ANY)

instance (group interface : Nat) (route : Ipv4MulticastRoutingTableEntry) :
    Decidable (specMulticastMatch group interface route) := by
  unfold specMulticastMatch; infer_instance

/-- Two multicast routes for `224.1.2.3`: the first from origin `10.0.0.5` with input
interface `IF_ANY` and output 1, the second from origin `10.0.0.7` with input interface 0
and output 2. -/
def wildcardFirstEngine : Ipv4StaticRouting :=
  { m_networkRoutes := []
    m_multicastRoutes :=
      [ { m_origin := 0x0a000005, m_group := 0xe0010203, m_inputInterface := IF_ANY,
          m_outputInterfaces := [1] },
        { m_origin := 0x0a000007, m_group := 0xe0010203, m_inputInterface := 0,
          m_outputInterfaces := [2] } ]
    m_ipv4 := exampleStack
    m_randomEcmpRouting := false, m_flowEcmpRouting := false, m_rand := fun lo _ => lo }

/-- The invocation is one of the error callback. -/
def isErrorCallback : CallbackEvent → Bool
  | CallbackEvent.ecb _ _ _ => true
  | _ => false

/-- Scenario 2: the table after `SetDefaultRoute (192.168.1.1, 0, 0)` on an empty table. -/
def defaultRouteEngine : Ipv4StaticRouting :=
  SetDefaultRoute (exampleEngine [] false) 0xc0a80101 0 0

/-- A header from `10.0.9.9` to the limited broadcast address `255.255.255.255`. -/
def broadcastHeader : Ipv4Header :=
  { m_source := 0x0a000909, m_destination := 0xffffffff, m_protocol := 17 }

/-- A host stack like `exampleStack` whose interfaces do not forward. -/
def nonForwardingStack : Ipv4 :=
  { exampleStack with IsForwarding := fun _ => false }

/-- Scenario 1 on a stack whose interfaces do not forward. -/
def nonForwardingEngine : Ipv4StaticRouting :=
  { lpmEngine with m_ipv4 := nonForwardingStack }

/-- A multicast UDP header from `10.0.0.5` to the group `224.1.2.3`. -/
def multicastHeader : Ipv4Header :=
  { m_source := 0x0a000005, m_destination := 0xe0010203, m_protocol := 17 }

/-- Scenario 6: routes via interfaces 1, 2 and 3 with metrics 0, 4 and 9. -/
def threeInterfaceEngine : Ipv4StaticRouting :=
  exampleEngine [(net8 1, 0), (net16 2, 4), (net8 3, 9)] false

/-- The address `10.0.5.5` with the all-ones mask. -/
def hostAddress : Ipv4InterfaceAddress :=
  { m_local := 0x0a000505, m_mask := 0xffffffff, m_broadcast := 0x0a000505,
    m_secondary := false }

/-- A host stack whose interfaces are up and have `hostAddress` as their only address. -/
def hostAddressStack : Ipv4 :=
  { exampleStack with GetAddress := fun _ _ => hostAddress }

/-- An engine with an empty table bound to `hostAddressStack`. -/
def hostAddressEngine : Ipv4StaticRouting :=
  { exampleEngine [] false with m_ipv4 := hostAddressStack }

/-- The stack `exampleStack` after `hostAddress` was added to interface 1 as a second
address. -/
def exampleStackWithHostAddress : Ipv4 :=
  { exampleStack with
    GetNAddresses := fun j => if j = 1 then 2 else 1
    GetAddress := fun j k => if j = 1 ∧ k = 1 then hostAddress else exampleStack.GetAddress j k }

/-- The connected route of the specification for an address of interface `i`:
`(local AND mask, mask, interface i, gateway 0.0.0.0)` with metric 0. -/
def connectedRoute (i : Nat) (a : Ipv4InterfaceAddress) : Ipv4RoutingTableEntry × Nat :=
  ({ m_dest := a.GetLocal &&& a.GetMask, m_destNetworkMask := a.GetMask, m_gateway := 0,
     m_interface := i }, 0)

/-- Invariant of the loop of `GetDefaultRoute` after the nodes `pre`: either no node of mask
length 0 was met and the variables have their initial values, or `result` is a node of mask
length 0 of `pre` whose metric is `shortest_metric`, the least among the nodes of mask
length 0 of `pre`. -/
def DefaultRouteInv (pre : List (Ipv4RoutingTableEntry × Nat)) (shortest_metric : Nat)
    (result : Option Ipv4RoutingTableEntry) : Prop :=
  (result = none ∧ shortest_metric = UINT32_MAX ∧
      ∀ q ∈ pre, GetPrefixLength q.1.GetDestNetworkMask ≠ 0) ∨
  (∃ j, result = some j ∧ (j, shortest_metric) ∈ pre ∧
      GetPrefixLength j.GetDestNetworkMask = 0 ∧
      ∀ q ∈ pre, GetPrefixLength q.1.GetDestNetworkMask = 0 → shortest_metric ≤ q.2)

/-- A table with the default routes of metrics 7, 3 and 3 around a `/8` route. -/
def defaultRoutesEngine : Ipv4StaticRouting :=
  exampleEngine
    [ (Ipv4RoutingTableEntry.CreateNetworkRouteTo 0 0 0xc0a80101 0, 7),
      (Ipv4RoutingTableEntry.CreateNetworkRouteTo 0 0 0xc0a80102 1, 3),
      (net8 2, 0),
      (Ipv4RoutingTableEntry.CreateNetworkRouteTo 0 0 0xc0a80103 3, 3) ] false

/-- A call that changes the list of network routes. -/
inductive TableOp where
  | addNetworkRouteTo (network networkMask nextHop interface metric : Nat)
  | addNetworkRouteToInterface (network networkMask interface metric : Nat)
  | addHostRouteTo (dest nextHop interface metric : Nat)
  | addHostRouteToInterface (dest interface metric : Nat)
  | setDefaultRoute (nextHop interface metric : Nat)
  | setDefaultMulticastRoute (outputInterface : Nat)
  | removeRoute (index : Nat)
deriving DecidableEq, Repr

/-- The engine after one call, by the methods of the source. -/
def applyOp (s : Ipv4StaticRouting) : TableOp → Except Fault Ipv4StaticRouting
  | TableOp.addNetworkRouteTo network networkMask nextHop interface metric =>
    .ok (AddNetworkRouteTo s network networkMask nextHop interface metric)
  | TableOp.addNetworkRouteToInterface network networkMask interface metric =>
    .ok (AddNetworkRouteToInterface s network networkMask interface metric)
  | TableOp.addHostRouteTo dest nextHop interface metric =>
    .ok (AddHostRouteTo s dest nextHop interface metric)
  | TableOp.addHostRouteToInterface dest interface metric =>
    .ok (AddHostRouteToInterface s dest interface metric)
  | TableOp.setDefaultRoute nextHop interface metric =>
    .ok (SetDefaultRoute s nextHop interface metric)
  | TableOp.setDefaultMulticastRoute outputInterface =>
    .ok (SetDefaultMulticastRoute s outputInterface)
  | TableOp.removeRoute index => RemoveRoute s index

/-- The engine after a sequence of calls; a call that ends on a fault ends the sequence. -/
def applyOps (s : Ipv4StaticRouting) : List TableOp → Except Fault Ipv4StaticRouting
  | [] => .ok s
  | op :: rest =>
    match applyOp s op with
    | .ok s1 => applyOps s1 rest
    | .error f => .error f

/-- Written from the specification: the node an add call stands for (`addHostRoute` is
`addNetworkRoute` with the all-ones mask, `setDefaultRoute` is `addNetworkRoute` of
`0.0.0.0/0.0.0.0`, `setDefaultMulticastRoute` is `224.0.0.0/240.0.0.0` with metric 0, a
call without next hop has gateway `0.0.0.0`); a removal stands for no node. -/
def addedNode : TableOp → Option (Ipv4RoutingTableEntry × Nat)
  | TableOp.addNetworkRouteTo network networkMask nextHop interface metric =>
    some ({ m_dest := network, m_destNetworkMask := networkMask, m_gateway := nextHop,
            m_interface := interface }, metric)
  | TableOp.addNetworkRouteToInterface network networkMask interface metric =>
    some ({ m_dest := network, m_destNetworkMask := networkMask, m_gateway := 0,
            m_interface := interface }, metric)
  | TableOp.addHostRouteTo dest nextHop interface metric =>
    some ({ m_dest := dest, m_destNetworkMask := 0xffffffff, m_gateway := nextHop,
            m_interface := interface }, metric)
  | TableOp.addHostRouteToInterface dest interface metric =>
    some ({ m_dest := dest, m_destNetworkMask := 0xffffffff, m_gateway := 0,
            m_interface := interface }, metric)
  | TableOp.setDefaultRoute nextHop interface metric =>
    some ({ m_dest := 0, m_destNetworkMask := 0, m_gateway := nextHop,
            m_interface := interface }, metric)
  | TableOp.setDefaultMulticastRoute outputInterface =>
    some ({ m_dest := 0xe0000000, m_destNetworkMask := 0xf0000000, m_gateway := 0,
            m_interface := outputInterface }, 0)
  | TableOp.removeRoute _ => none

/-- Written from the specification: one call replayed on a plain list, an add as an append
at the end and `RemoveRoute (i)` as the deletion of the element at position `i`. -/
def replayOp (l : List (Ipv4RoutingTableEntry × Nat)) (op : TableOp) :
    List (Ipv4RoutingTableEntry × Nat) :=
  match op with
  | TableOp.removeRoute index => l.eraseIdx index
  | _ => l ++ (addedNode op).toList

/-- Written from the specification: a sequence of calls replayed on a plain list. -/
def replay (l : List (Ipv4RoutingTableEntry × Nat)) (ops : List TableOp) :
    List (Ipv4RoutingTableEntry × Nat) :=
  ops.foldl replayOp l

/-- Every `RemoveRoute (i)` of the sequence has `i` in range of the list at its turn. -/
def replayInRange : List (Ipv4RoutingTableEntry × Nat) → List TableOp → Bool
  | _, [] => true
  | l, op :: rest =>
    (match op with
      | TableOp.removeRoute index => decide (index < l.length)
      | _ => true) && replayInRange (replayOp l op) rest

/-- A sequence of calls on an empty table: three adds, a removal at position 1, a default
multicast route and a removal at position 0. -/
def exampleOps : List TableOp :=
  [ TableOp.addNetworkRouteTo 0x0a000000 0xff000000 0xc0a80101 1 5,
    TableOp.addHostRouteToInterface 0x0a000505 2 7,
    TableOp.setDefaultRoute 0xc0a80101 0 9,
    TableOp.removeRoute 1,
    TableOp.setDefaultMulticastRoute 3,
    TableOp.removeRoute 0 ]

/-- The key test of `RemoveMulticastRoute (origin, group, inputInterface)` (lines 212-214):
the route equals the key on the three fields. -/
def multicastKeyTest (origin group inputInterface : Nat)
    (route : Ipv4MulticastRoutingTableEntry) : Prop :=
  origin = route.GetOrigin ∧ group = route.GetGroup ∧ inputInterface = route.GetInputInterface

instance (origin group inputInterface : Nat) (route : Ipv4MulticastRoutingTableEntry) :
    Decidable (multicastKeyTest origin group inputInterface route) := by
  unfold multicastKeyTest; infer_instance

/-- A multicast table with twice the same route around another one, for the key
`(10.0.0.7, 224.1.2.3, 1)`. -/
def duplicateKeyEngine : Ipv4StaticRouting :=
  { m_networkRoutes := []
    m_multicastRoutes :=
      [ { m_origin := 0x0a000005, m_group := 0xe0010203, m_inputInterface := 1,
          m_outputInterfaces := [2] },
        { m_origin := 0x0a000007, m_group := 0xe0010203, m_inputInterface := 1,
          m_outputInterfaces := [2] },
        { m_origin := 0x0a000007, m_group := 0xe0010203, m_inputInterface := 2,
          m_outputInterfaces := [3] },
        { m_origin := 0x0a000007, m_group := 0xe0010203, m_inputInterface := 1,
          m_outputInterfaces := [3] } ]
    m_ipv4 := exampleStack
    m_randomEcmpRouting := false, m_flowEcmpRouting := false, m_rand := fun lo _ => lo }

/-- A host stack whose interface 1 has three addresses: `10.0.1.1/24`, the secondary
`192.168.5.1/24` and `192.168.5.2/24`. -/
def multiAddressStack : Ipv4 :=
  { exampleStack with
    GetNAddresses := fun j => if j = 1 then 3 else 1
    GetAddress := fun j k =>
      if j = 1 ∧ k = 1 then
        { m_local := 0xc0a80501, m_mask := 0xffffff00, m_broadcast := 0xc0a805ff,
          m_secondary := true }
      else if j = 1 ∧ k = 2 then
        { m_local := 0xc0a80502, m_mask := 0xffffff00, m_broadcast := 0xc0a805ff,
          m_secondary := false }
      else exampleStack.GetAddress j k }

/-- An engine with an empty table bound to `multiAddressStack`. -/
def multiAddressEngine : Ipv4StaticRouting :=
  { exampleEngine [] false with m_ipv4 := multiAddressStack }

/-- The test of lines 860-862 on the address `k` of an interface: the address is on the
network of the destination and is not secondary. -/
def sourceTest (ipv4 : Ipv4) (interfaceIdx dest k : Nat) : Prop :=
  CombineMask (ipv4.GetAddress interfaceIdx k).GetLocal (ipv4.GetAddress interfaceIdx k).GetMask
      = CombineMask dest (ipv4.GetAddress interfaceIdx k).GetMask
    ∧ (ipv4.GetAddress interfaceIdx k).IsSecondary = false

instance (ipv4 : Ipv4) (interfaceIdx dest k : Nat) :
    Decidable (sourceTest ipv4 interfaceIdx dest k) := by
  unfold sourceTest; infer_instance

/-- The device of a network card: the first device of its node, of index 0. -/
def cardDevice : NetDevice := { id := 7, ifIndex := 0 }

/-- The loopback device, added to the node after the card: device index 1. -/
def loopbackDevice : NetDevice := { id := 8, ifIndex := 1 }

/-- A host stack whose interface 0 is the loopback interface `127.0.0.1/8` and whose
interface 1 is bound to the card, with the address `10.0.0.1/24`. -/
def loopbackFirstStack : Ipv4 :=
  { GetNInterfaces := 2
    IsUp := fun _ => true
    IsForwarding := fun _ => true
    GetNAddresses := fun _ => 1
    GetAddress := fun j _ =>
      if j = 0 then
        { m_local := 0x7f000001, m_mask := 0xff000000, m_broadcast := 0x7fffffff,
          m_secondary := false }
      else
        { m_local := 0x0a000001, m_mask := 0xffffff00, m_broadcast := 0x0a0000ff,
          m_secondary := false }
    GetNetDevice := fun i => if i = 0 then some loopbackDevice else some cardDevice
    GetInterfaceForDevice := fun d =>
      if d = some loopbackDevice then 0 else if d = some cardDevice then 1 else -1 }

/-- An engine with an empty table bound to `loopbackFirstStack`. -/
def loopbackFirstEngine : Ipv4StaticRouting :=
  { exampleEngine [] false with m_ipv4 := loopbackFirstStack }

/-- Two default routes of equal metric: via `192.168.1.1` on interface 0, then via
`192.168.2.1` on interface 1. -/
def twoDefaultsEngine : Ipv4StaticRouting :=
  SetDefaultRoute (SetDefaultRoute (exampleEngine [] false) 0xc0a80101 0 0) 0xc0a80201 1 0

/-- The header of the reverse direction: source and destination addresses swapped. -/
def reverseHeader (header : Ipv4Header) : Ipv4Header :=
  { header with m_source := header.m_destination, m_destination := header.m_source }

/-- The transport header of the reverse direction: the ports swapped. -/
def reverseTransport (t : TransportHeader) : TransportHeader :=
  { m_sourcePort := t.m_destinationPort, m_destinationPort := t.m_sourcePort }

/-- The payload of the reverse direction: the ports of its transport header swapped. -/
def reversePacket (p : Packet) : Packet :=
  { peekUdpHeader := reverseTransport p.peekUdpHeader,
    peekTcpHeader := reverseTransport p.peekTcpHeader }

/-! ## Theorems -/

/-- A node that fails the acceptance test leaves the scan variables unchanged. -/
theorem scanStep_of_not_candidate (ipv4 : Ipv4) (dst : Nat) (oif : Option NetDevice)
    (st : ScanState) (p : Ipv4RoutingTableEntry × Nat)
    (h : isCandidate ipv4 dst oif p = false) : scanStep ipv4 dst oif st p = st := by
  unfold scanStep
  simp only [isCandidate, Bool.and_eq_false_iff, Bool.or_eq_false_iff, beq_eq_false_iff_ne] at h
  rcases h with h | ⟨h1, h2⟩
  · simp [h]
  · by_cases hm : IsMatch p.1.GetDestNetworkMask dst p.1.GetDestNetwork = true
    · simp [hm, h1, h2]
    · simp [hm]

/-- The effect of the loop body on an accepted node, by cases on mask length and metric. -/
theorem scanStep_of_candidate (ipv4 : Ipv4) (dst : Nat) (oif : Option NetDevice)
    (st : ScanState) (p : Ipv4RoutingTableEntry × Nat)
    (h : isCandidate ipv4 dst oif p = true) :
    scanStep ipv4 dst oif st p =
      if masklenOf p < st.longest_mask then st
      else if st.longest_mask < masklenOf p then
        if UINT32_MAX < p.2 then
          { longest_mask := masklenOf p, shortest_metric := UINT32_MAX, allRoutes := [] }
        else
          { longest_mask := masklenOf p, shortest_metric := p.2, allRoutes := [p.1] }
      else if st.shortest_metric < p.2 then
        { st with longest_mask := masklenOf p }
      else if p.2 < st.shortest_metric then
        { longest_mask := masklenOf p, shortest_metric := p.2, allRoutes := [p.1] }
      else
        { longest_mask := masklenOf p, shortest_metric := p.2,
          allRoutes := st.allRoutes ++ [p.1] } := by
  unfold scanStep
  simp only [isCandidate, Bool.and_eq_true, Bool.or_eq_true, beq_iff_eq] at h
  obtain ⟨hm, hd⟩ := h
  have hd2 : ¬ (oif ≠ none ∧ oif ≠ ipv4.GetNetDevice p.1.GetInterface) := by
    rintro ⟨a, b⟩; rcases hd with hd | hd
    · exact a hd
    · exact b hd
  simp only [hm, hd2, if_true, if_false, masklenOf, gt_iff_lt]
  split_ifs <;> simp_all

/-- Unfolding of `tiedAt`. -/
theorem tiedAt_iff (ipv4 : Ipv4) (dst : Nat) (oif : Option NetDevice) (len metric : Nat)
    (p : Ipv4RoutingTableEntry × Nat) :
    tiedAt ipv4 dst oif len metric p = true ↔
      isCandidate ipv4 dst oif p = true ∧ masklenOf p = len ∧ p.2 = metric := by
  simp [tiedAt, and_assoc]

/-- No node of `pre` is tied at `len` and `metric` when every accepted node of that length
has another metric. -/
theorem filter_tiedAt_eq_nil (ipv4 : Ipv4) (dst : Nat) (oif : Option NetDevice) (len metric : Nat)
    (pre : List (Ipv4RoutingTableEntry × Nat))
    (h : ∀ p ∈ pre, isCandidate ipv4 dst oif p = true → masklenOf p = len → p.2 ≠ metric) :
    pre.filter (tiedAt ipv4 dst oif len metric) = [] := by
  rw [List.filter_eq_nil_iff]
  intro a ha hta
  rw [tiedAt_iff] at hta
  exact h a ha hta.1 hta.2.1 hta.2.2

/-- The invariant holds before the first iteration. -/
theorem scanInv_init (ipv4 : Ipv4) (dst : Nat) (oif : Option NetDevice) :
    ScanInv ipv4 dst oif [] scanInit := by
  refine ⟨?_, ?_, ?_, ?_⟩
  · intro p hp; simp at hp
  · intro p hp; simp at hp
  · simp [scanInit]
  · left; refine ⟨?_, rfl, rfl⟩
    intro p hp; simp at hp

/-- One iteration of the scan loop preserves the invariant, for a metric within `uint32_t`. -/
theorem scanInv_step (ipv4 : Ipv4) (dst : Nat) (oif : Option NetDevice)
    (pre : List (Ipv4RoutingTableEntry × Nat)) (st : ScanState)
    (p : Ipv4RoutingTableEntry × Nat)
    (hinv : ScanInv ipv4 dst oif pre st) (hp : p.2 ≤ UINT32_MAX) :
    ScanInv ipv4 dst oif (pre ++ [p]) (scanStep ipv4 dst oif st p) := by
  obtain ⟨h1, h2, h3, h4⟩ := hinv
  by_cases hc : isCandidate ipv4 dst oif p = true
  · rw [scanStep_of_candidate ipv4 dst oif st p hc]
    have hst : st.longest_mask = 0 → st.shortest_metric = UINT32_MAX ∨
        ∃ q ∈ pre, isCandidate ipv4 dst oif q = true ∧ masklenOf q = st.longest_mask
          ∧ q.2 = st.shortest_metric := by
      intro _
      rcases h4 with ⟨_, _, h⟩ | h
      · exact Or.inl h
      · exact Or.inr h
    by_cases hlt : masklenOf p < st.longest_mask
    · -- shorter mask: skipped
      rw [if_pos hlt]
      have hex : ∃ q ∈ pre, isCandidate ipv4 dst oif q = true ∧ masklenOf q = st.longest_mask
          ∧ q.2 = st.shortest_metric := by
        rcases h4 with ⟨_, h0, _⟩ | h
        · omega
        · exact h
      refine ⟨?_, ?_, ?_, ?_⟩
      · intro q hq hcq
        rcases List.mem_append.1 hq with hq | hq
        · exact h1 q hq hcq
        · simp at hq; subst hq; omega
      · intro q hq hcq hml
        rcases List.mem_append.1 hq with hq | hq
        · exact h2 q hq hcq hml
        · simp at hq; subst hq; omega
      · have : tiedAt ipv4 dst oif st.longest_mask st.shortest_metric p = false := by
          rw [Bool.eq_false_iff]; intro h; rw [tiedAt_iff] at h; omega
        simp [List.filter_append, this, h3]
      · right
        obtain ⟨q, hq, hq'⟩ := hex
        exact ⟨q, List.mem_append_left _ hq, hq'⟩
    · rw [if_neg hlt]
      by_cases hgt : st.longest_mask < masklenOf p
      · -- longer mask: everything is reset
        rw [if_pos hgt, if_neg (by omega)]
        refine ⟨?_, ?_, ?_, ?_⟩
        · intro q hq hcq
          rcases List.mem_append.1 hq with hq | hq
          · have := h1 q hq hcq; simp only; omega
          · simp at hq; subst hq; simp
        · intro q hq hcq hml
          rcases List.mem_append.1 hq with hq | hq
          · have := h1 q hq hcq; simp only at hml; omega
          · simp at hq; subst hq; simp
        · simp only
          rw [List.filter_append, filter_tiedAt_eq_nil ipv4 dst oif _ _ pre]
          · have : tiedAt ipv4 dst oif (masklenOf p) p.2 p = true := by
              rw [tiedAt_iff]; exact ⟨hc, rfl, rfl⟩
            simp [this]
          · intro q hq hcq hml
            have := h1 q hq hcq; omega
        · right
          exact ⟨p, by simp, hc, rfl, rfl⟩
      · rw [if_neg hgt]
        have heq : masklenOf p = st.longest_mask := by omega
        by_cases hm1 : st.shortest_metric < p.2
        · -- larger metric: skipped
          rw [if_pos hm1]
          have hex : ∃ q ∈ pre, isCandidate ipv4 dst oif q = true ∧ masklenOf q = st.longest_mask
              ∧ q.2 = st.shortest_metric := by
            rcases h4 with ⟨_, _, h0⟩ | h
            · omega
            · exact h
          refine ⟨?_, ?_, ?_, ?_⟩
          · intro q hq hcq
            rcases List.mem_append.1 hq with hq | hq
            · have := h1 q hq hcq; simp only; omega
            · simp at hq; subst hq; simp
          · intro q hq hcq hml
            simp only at hml ⊢
            rcases List.mem_append.1 hq with hq | hq
            · exact h2 q hq hcq (by omega)
            · simp at hq; subst hq; omega
          · have : tiedAt ipv4 dst oif (masklenOf p) st.shortest_metric p = false := by
              rw [Bool.eq_false_iff]; intro h; rw [tiedAt_iff] at h; omega
            simp only
            rw [List.filter_append, heq] at *
            simp [this, h3]
          · right
            obtain ⟨q, hq, hq1, hq2, hq3⟩ := hex
            exact ⟨q, List.mem_append_left _ hq, hq1, by simp only; omega, hq3⟩
        · rw [if_neg hm1]
          by_cases hm2 : p.2 < st.shortest_metric
          · -- smaller metric: the candidate set is reset
            rw [if_pos hm2]
            refine ⟨?_, ?_, ?_, ?_⟩
            · intro q hq hcq
              rcases List.mem_append.1 hq with hq | hq
              · have := h1 q hq hcq; simp only; omega
              · simp at hq; subst hq; simp
            · intro q hq hcq hml
              simp only at hml ⊢
              rcases List.mem_append.1 hq with hq | hq
              · have := h2 q hq hcq (by omega); omega
              · simp at hq; subst hq; simp
            · simp only
              rw [List.filter_append, filter_tiedAt_eq_nil ipv4 dst oif _ _ pre]
              · have : tiedAt ipv4 dst oif (masklenOf p) p.2 p = true := by
                  rw [tiedAt_iff]; exact ⟨hc, rfl, rfl⟩
                simp [this]
              · intro q hq hcq hml
                have := h2 q hq hcq (by omega); omega
            · right
              exact ⟨p, by simp, hc, rfl, rfl⟩
          · -- equal metric: the entry joins the candidate set
            rw [if_neg hm2]
            have hmeq : p.2 = st.shortest_metric := by omega
            refine ⟨?_, ?_, ?_, ?_⟩
            · intro q hq hcq
              rcases List.mem_append.1 hq with hq | hq
              · have := h1 q hq hcq; simp only; omega
              · simp at hq; subst hq; simp
            · intro q hq hcq hml
              simp only at hml ⊢
              rcases List.mem_append.1 hq with hq | hq
              · have := h2 q hq hcq (by omega); omega
              · simp at hq; subst hq; simp
            · have : tiedAt ipv4 dst oif (masklenOf p) p.2 p = true := by
                rw [tiedAt_iff]; exact ⟨hc, rfl, rfl⟩
              simp only
              rw [List.filter_append, h3, heq, hmeq]
              rw [heq, hmeq] at this
              simp [this]
            · right
              exact ⟨p, by simp, hc, rfl, rfl⟩
  · have hc' : isCandidate ipv4 dst oif p = false := by simpa using hc
    rw [scanStep_of_not_candidate ipv4 dst oif st p hc']
    refine ⟨?_, ?_, ?_, ?_⟩
    · intro q hq hcq
      rcases List.mem_append.1 hq with hq | hq
      · exact h1 q hq hcq
      · simp at hq; subst hq; simp [hc'] at hcq
    · intro q hq hcq hml
      rcases List.mem_append.1 hq with hq | hq
      · exact h2 q hq hcq hml
      · simp at hq; subst hq; simp [hc'] at hcq
    · have : tiedAt ipv4 dst oif st.longest_mask st.shortest_metric p = false := by
        simp [tiedAt, hc']
      simp [List.filter_append, this, h3]
    · rcases h4 with ⟨h0, ha, hb⟩ | ⟨q, hq, hq'⟩
      · left
        refine ⟨?_, ha, hb⟩
        intro q hq
        rcases List.mem_append.1 hq with hq | hq
        · exact h0 q hq
        · simp at hq; subst hq; exact hc'
      · right
        exact ⟨q, List.mem_append_left _ hq, hq'⟩

/-- The invariant holds after the whole loop. -/
theorem scanInv_foldl (ipv4 : Ipv4) (dst : Nat) (oif : Option NetDevice)
    (table : List (Ipv4RoutingTableEntry × Nat))
    (hm : ∀ p ∈ table, p.2 ≤ UINT32_MAX) :
    ScanInv ipv4 dst oif table (table.foldl (scanStep ipv4 dst oif) scanInit) := by
  induction table using List.reverseRecOn with
  | nil => exact scanInv_init ipv4 dst oif
  | append_singleton pre p ih =>
    rw [List.foldl_append]
    simp only [List.foldl_cons, List.foldl_nil]
    apply scanInv_step
    · exact ih (fun q hq => hm q (List.mem_append_left _ hq))
    · exact hm p (by simp)

/-- Under the invariant, the nodes tied at the final `longest_mask` and `shortest_metric`
are the best candidates of the specification. -/
theorem scanInv_tied_iff_best (ipv4 : Ipv4) (dst : Nat) (oif : Option NetDevice)
    (table : List (Ipv4RoutingTableEntry × Nat)) (st : ScanState)
    (hinv : ScanInv ipv4 dst oif table st) (p : Ipv4RoutingTableEntry × Nat)
    (hp : p ∈ table) :
    tiedAt ipv4 dst oif st.longest_mask st.shortest_metric p = true ↔
      IsBestCandidate ipv4 dst oif table p := by
  obtain ⟨h1, h2, _, h4⟩ := hinv
  rw [tiedAt_iff]
  constructor
  · rintro ⟨hc, hl, hmet⟩
    refine ⟨hc, fun q hq hcq => ⟨?_, ?_⟩⟩
    · have := h1 q hq hcq; omega
    · intro hml
      have := h2 q hq hcq (by omega); omega
  · rintro ⟨hc, hall⟩
    rcases h4 with ⟨h0, _, _⟩ | ⟨q, hq, hcq, hql, hqm⟩
    · rw [h0 p hp] at hc; exact absurd hc (by simp)
    · have a1 := hall q hq hcq
      have a2 := h1 p hp hc
      have hl : masklenOf p = st.longest_mask := by omega
      have a3 := h2 p hp hc hl
      have a4 := a1.2 (by omega)
      exact ⟨hc, hl, by omega⟩

/-- After the scan, `allRoutes` is the list of best candidates in insertion order. -/
theorem scanRoutes_allRoutes (s : Ipv4StaticRouting) (dst : Nat) (oif : Option NetDevice)
    (hm : MetricsInRange s) :
    (scanRoutes s dst oif).allRoutes =
      (s.m_networkRoutes.filter
        (fun p => decide (IsBestCandidate s.m_ipv4 dst oif s.m_networkRoutes p))).map Prod.fst := by
  have hinv := scanInv_foldl s.m_ipv4 dst oif s.m_networkRoutes hm
  have h3 := hinv.2.2.1
  unfold scanRoutes
  rw [h3]
  congr 1
  apply List.filter_congr
  intro p hp
  have := scanInv_tied_iff_best s.m_ipv4 dst oif s.m_networkRoutes _ hinv p hp
  by_cases hb : IsBestCandidate s.m_ipv4 dst oif s.m_networkRoutes p
  · simp [hb, this.2 hb]
  · have : ¬ tiedAt s.m_ipv4 dst oif
        (List.foldl (scanStep s.m_ipv4 dst oif) scanInit s.m_networkRoutes).longest_mask
        (List.foldl (scanStep s.m_ipv4 dst oif) scanInit s.m_networkRoutes).shortest_metric p
          = true := fun h => hb (this.1 h)
    simp only [Bool.not_eq_true] at this
    simp [hb, this]

/-- With both ECMP flags false the selection is the head of `allRoutes`. -/
theorem selectRoute_no_ecmp (s : Ipv4StaticRouting) (header : Ipv4Header) (ipPayload : Packet)
    (oif : Option NetDevice)
    (hr : s.m_randomEcmpRouting = false) (hf : s.m_flowEcmpRouting = false) :
    selectRoute s header ipPayload oif =
      .ok (scanRoutes s header.GetDestination oif).allRoutes.head? := by
  unfold selectRoute
  cases h : (scanRoutes s header.GetDestination oif).allRoutes with
  | nil => simp
  | cons a l => simp [hr, hf]

/-- Without a constraint device the acceptance test is the mask test. -/
theorem isCandidate_none (ipv4 : Ipv4) (dst : Nat) (p : Ipv4RoutingTableEntry × Nat) :
    isCandidate ipv4 dst none p = IsMatch p.1.GetDestNetworkMask dst p.1.GetDestNetwork := by
  simp [isCandidate]

/-- With both ECMP flags false the selected entry is a best candidate of the table. -/
theorem selected_is_best (s : Ipv4StaticRouting) (header : Ipv4Header) (ipPayload : Packet)
    (oif : Option NetDevice) (r : Ipv4RoutingTableEntry)
    (hm : MetricsInRange s)
    (hr : s.m_randomEcmpRouting = false) (hf : s.m_flowEcmpRouting = false)
    (hsel : selectRoute s header ipPayload oif = .ok (some r)) :
    ∃ metric, (r, metric) ∈ s.m_networkRoutes ∧
      IsBestCandidate s.m_ipv4 header.GetDestination oif s.m_networkRoutes (r, metric) := by
  rw [selectRoute_no_ecmp s header ipPayload oif hr hf] at hsel
  have hhead : (scanRoutes s header.GetDestination oif).allRoutes.head? = some r := by
    injection hsel
  have hmem : r ∈ (scanRoutes s header.GetDestination oif).allRoutes :=
    List.mem_of_mem_head? hhead
  rw [scanRoutes_allRoutes s _ oif hm, List.mem_map] at hmem
  obtain ⟨⟨e, metric⟩, hp, hpe⟩ := hmem
  simp only at hpe
  subst hpe
  rw [List.mem_filter] at hp
  exact ⟨metric, hp.1, by simpa using hp.2⟩

/-- Outside link-local multicast and random ECMP, `LookupStatic` builds its route from the
selection. -/
theorem lookupStatic_of_select (s : Ipv4StaticRouting) (header : Ipv4Header) (ipPayload : Packet)
    (oif : Option NetDevice)
    (hr : s.m_randomEcmpRouting = false)
    (hlm : IsLocalMulticast header.GetDestination = false) :
    LookupStatic s header ipPayload oif =
      (selectRoute s header ipPayload oif).map (Option.map (makeRoute s)) := by
  unfold LookupStatic
  simp only [hr, hlm, Bool.false_eq_true, false_and, if_false]
  cases h : selectRoute s header ipPayload oif with
  | error f => rfl
  | ok o => cases o <;> rfl

/-- After the scan, `allRoutes` is empty exactly when no node is accepted. -/
theorem scan_allRoutes_eq_nil_iff (s : Ipv4StaticRouting) (dst : Nat) (oif : Option NetDevice)
    (hm : MetricsInRange s) :
    (scanRoutes s dst oif).allRoutes = [] ↔
      ∀ p ∈ s.m_networkRoutes, isCandidate s.m_ipv4 dst oif p = false := by
  have hinv := scanInv_foldl s.m_ipv4 dst oif s.m_networkRoutes hm
  obtain ⟨_, _, h3, h4⟩ := hinv
  unfold scanRoutes
  constructor
  · intro hnil
    rcases h4 with ⟨h0, _, _⟩ | ⟨q, hq, hcq, hql, hqm⟩
    · exact h0
    · rw [hnil] at h3
      have hq' : q ∈ s.m_networkRoutes.filter (tiedAt s.m_ipv4 dst oif
          (List.foldl (scanStep s.m_ipv4 dst oif) scanInit s.m_networkRoutes).longest_mask
          (List.foldl (scanStep s.m_ipv4 dst oif) scanInit s.m_networkRoutes).shortest_metric) := by
        rw [List.mem_filter, tiedAt_iff]; exact ⟨hq, hcq, hql, hqm⟩
      have h3' := h3.symm
      rw [List.map_eq_nil_iff] at h3'
      rw [h3'] at hq'
      simp at hq'
  · intro h0
    rw [h3, List.map_eq_nil_iff, List.filter_eq_nil_iff]
    intro a ha hta
    rw [tiedAt_iff] at hta
    rw [h0 a ha] at hta
    exact absurd hta.1 (by simp)

/-- Scanning with a constraint device is scanning the table restricted to that device
without constraint. -/
theorem scanStep_filter (ipv4 : Ipv4) (dst : Nat) (dev : NetDevice)
    (table : List (Ipv4RoutingTableEntry × Nat)) (st : ScanState) :
    table.foldl (scanStep ipv4 dst (some dev)) st =
      (table.filter (fun p => decide (ipv4.GetNetDevice p.1.GetInterface = some dev))).foldl
        (scanStep ipv4 dst none) st := by
  induction table generalizing st with
  | nil => rfl
  | cons p rest ih =>
    by_cases hd : ipv4.GetNetDevice p.1.GetInterface = some dev
    · have hstep : scanStep ipv4 dst (some dev) st p = scanStep ipv4 dst none st p := by
        unfold scanStep
        simp [hd]
      simp only [List.foldl_cons, List.filter_cons, hd, decide_True, if_true]
      rw [hstep]
      exact ih _
    · have hstep : scanStep ipv4 dst (some dev) st p = st := by
        apply scanStep_of_not_candidate
        have hne : ¬ (some dev = ipv4.GetNetDevice p.1.GetInterface) := fun h => hd h.symm
        simp [isCandidate, hne]
      simp only [List.foldl_cons, List.filter_cons, hd, decide_False, if_false]
      rw [hstep]
      exact ih _

/-- Every element of `allRoutes` was there before the loop or is an entry of the scanned
list. -/
theorem scan_allRoutes_subset (ipv4 : Ipv4) (dst : Nat) (oif : Option NetDevice)
    (table : List (Ipv4RoutingTableEntry × Nat)) (st : ScanState) :
    ∀ r ∈ (table.foldl (scanStep ipv4 dst oif) st).allRoutes,
      r ∈ st.allRoutes ∨ ∃ p ∈ table, p.1 = r := by
  induction table generalizing st with
  | nil => intro r hr; exact Or.inl hr
  | cons p rest ih =>
    intro r hr
    simp only [List.foldl_cons] at hr
    rcases ih _ r hr with h | ⟨q, hq, hqr⟩
    · by_cases hc : isCandidate ipv4 dst oif p = true
      · rw [scanStep_of_candidate ipv4 dst oif st p hc] at h
        split_ifs at h
        · exact Or.inl h
        · simp at h
        · simp at h; exact Or.inr ⟨p, by simp, h.symm⟩
        · exact Or.inl h
        · simp at h; exact Or.inr ⟨p, by simp, h.symm⟩
        · simp at h
          rcases h with h | h
          · exact Or.inl h
          · exact Or.inr ⟨p, by simp, h.symm⟩
      · have hc' : isCandidate ipv4 dst oif p = false := by simpa using hc
        rw [scanStep_of_not_candidate ipv4 dst oif st p hc'] at h
        exact Or.inl h
    · exact Or.inr ⟨q, List.mem_cons_of_mem _ hq, hqr⟩

/-- A successful `at (selectIndex)` yields an element of the vector. -/
theorem at_mem (l : List Ipv4RoutingTableEntry) (selectIndex : Nat)
    (r : Ipv4RoutingTableEntry)
    (h : (match l.get? selectIndex with
          | some route => (Except.ok (some route) : Except Fault (Option Ipv4RoutingTableEntry))
          | none => Except.error Fault.outOfRange) = Except.ok (some r)) :
    r ∈ l := by
  cases hget : l.get? selectIndex with
  | none => rw [hget] at h; simp at h
  | some route =>
    rw [hget] at h
    have : route = r := by injection h with h; injection h
    subst this
    exact List.get?_mem hget

/-- A selected entry is an element of `allRoutes`. -/
theorem selectRoute_mem (s : Ipv4StaticRouting) (header : Ipv4Header) (ipPayload : Packet)
    (oif : Option NetDevice) (r : Ipv4RoutingTableEntry)
    (hsel : selectRoute s header ipPayload oif = .ok (some r)) :
    r ∈ (scanRoutes s header.GetDestination oif).allRoutes := by
  unfold selectRoute at hsel
  simp only at hsel
  by_cases h0 : (scanRoutes s header.GetDestination oif).allRoutes.length = 0
  · rw [if_pos h0] at hsel; simp at hsel
  · rw [if_neg h0] at hsel
    exact at_mem _ _ r hsel

/-- C1: with no constraint device and both ECMP flags false, on a destination that is not
link-local multicast, when the lookup selects the table entry `r` (and returns the route
built from it), `r` is an entry of the table whose mask matches, and no entry whose mask
matches the destination has a longer mask than `r`, whatever the metrics are. -/
theorem lookupStatic_longest_mask_dominance (s : Ipv4StaticRouting) (header : Ipv4Header)
    (ipPayload : Packet) (r : Ipv4RoutingTableEntry)
    (hm : MetricsInRange s)
    (hr : s.m_randomEcmpRouting = false) (hf : s.m_flowEcmpRouting = false)
    (hlm : IsLocalMulticast header.GetDestination = false)
    (hsel : selectRoute s header ipPayload none = .ok (some r)) :
    LookupStatic s header ipPayload none = .ok (some (makeRoute s r)) ∧
    (∃ metric, (r, metric) ∈ s.m_networkRoutes) ∧
    IsMatch r.GetDestNetworkMask header.GetDestination r.GetDestNetwork = true ∧
    ∀ q ∈ s.m_networkRoutes,
      IsMatch q.1.GetDestNetworkMask header.GetDestination q.1.GetDestNetwork = true →
        GetPrefixLength q.1.GetDestNetworkMask ≤ GetPrefixLength r.GetDestNetworkMask := by
  obtain ⟨metric, hmem, hc, hall⟩ := selected_is_best s header ipPayload none r hm hr hf hsel
  refine ⟨?_, ⟨metric, hmem⟩, ?_, ?_⟩
  · rw [lookupStatic_of_select s header ipPayload none hr hlm, hsel]; rfl
  · rw [isCandidate_none] at hc; exact hc
  · intro q hq hmatch
    have := (hall q hq (by rw [isCandidate_none]; exact hmatch)).1
    exact this

/-- C1 at scenario 1: `10.0.0.0/8` via interface 1 and `10.1.0.0/16` via interface 2,
destination `10.1.2.3` selects the `/16` entry on interface 2. -/
theorem lookupStatic_longest_mask_dominance_witness :
    LookupStatic lpmEngine (udpHeaderTo 0x0a010203) (udpPacket 0 0) none
        = .ok (some (makeRoute lpmEngine (net16 2))) ∧
    (∃ metric, (net16 2, metric) ∈ lpmEngine.m_networkRoutes) ∧
    IsMatch (net16 2).GetDestNetworkMask (udpHeaderTo 0x0a010203).GetDestination
        (net16 2).GetDestNetwork = true ∧
    ∀ q ∈ lpmEngine.m_networkRoutes,
      IsMatch q.1.GetDestNetworkMask (udpHeaderTo 0x0a010203).GetDestination
          q.1.GetDestNetwork = true →
        GetPrefixLength q.1.GetDestNetworkMask ≤ GetPrefixLength (net16 2).GetDestNetworkMask :=
  lookupStatic_longest_mask_dominance lpmEngine (udpHeaderTo 0x0a010203) (udpPacket 0 0)
    (net16 2) (by decide) rfl rfl rfl rfl

/-- C2: with no constraint device and both ECMP flags false, on a destination that is not
link-local multicast, the selected entry `r` stands in the table with a metric that is at
most the metric of every matching entry of the same mask length as `r`. -/
theorem lookupStatic_metric_tie_break (s : Ipv4StaticRouting) (header : Ipv4Header)
    (ipPayload : Packet) (r : Ipv4RoutingTableEntry)
    (hm : MetricsInRange s)
    (hr : s.m_randomEcmpRouting = false) (hf : s.m_flowEcmpRouting = false)
    (hlm : IsLocalMulticast header.GetDestination = false)
    (hsel : selectRoute s header ipPayload none = .ok (some r)) :
    LookupStatic s header ipPayload none = .ok (some (makeRoute s r)) ∧
    ∃ metric, (r, metric) ∈ s.m_networkRoutes ∧
      ∀ q ∈ s.m_networkRoutes,
        IsMatch q.1.GetDestNetworkMask header.GetDestination q.1.GetDestNetwork = true →
        GetPrefixLength q.1.GetDestNetworkMask = GetPrefixLength r.GetDestNetworkMask →
          metric ≤ q.2 := by
  obtain ⟨metric, hmem, _, hall⟩ := selected_is_best s header ipPayload none r hm hr hf hsel
  refine ⟨?_, metric, hmem, ?_⟩
  · rw [lookupStatic_of_select s header ipPayload none hr hlm, hsel]; rfl
  · intro q hq hmatch hlen
    exact (hall q hq (by rw [isCandidate_none]; exact hmatch)).2 hlen

/-- C2 at scenario 3: `10.0.0.0/8` via interface 1 with metric 10 and via interface 2 with
metric 5, destination `10.0.0.1` selects the entry on interface 2. -/
theorem lookupStatic_metric_tie_break_witness :
    LookupStatic metricEngine (udpHeaderTo 0x0a000001) (udpPacket 0 0) none
        = .ok (some (makeRoute metricEngine (net8 2))) ∧
    ∃ metric, (net8 2, metric) ∈ metricEngine.m_networkRoutes ∧
      ∀ q ∈ metricEngine.m_networkRoutes,
        IsMatch q.1.GetDestNetworkMask (udpHeaderTo 0x0a000001).GetDestination
            q.1.GetDestNetwork = true →
        GetPrefixLength q.1.GetDestNetworkMask = GetPrefixLength (net8 2).GetDestNetworkMask →
          metric ≤ q.2 :=
  lookupStatic_metric_tie_break metricEngine (udpHeaderTo 0x0a000001) (udpPacket 0 0)
    (net8 2) (by decide) rfl rfl rfl rfl

/-- C3 as stated fails on a link-local multicast destination: with the table holding only
`224.0.0.0/240.0.0.0` via interface 2 and destination `224.0.0.5`, the entry is the only
matching one, yet with the device of interface 2 as constraint the returned route has
destination `224.0.0.5` and is not the route built from the entry, and without a
constraint device the call ends on the assertion. -/
theorem lookupStatic_first_match_counterexample :
    tiedCandidates defaultMulticastEngine 0xe0000005 (some ⟨2, 2⟩)
        = [(Ipv4RoutingTableEntry.CreateNetworkRouteTo 0xe0000000 0xf0000000 0 2, 0)] ∧
    LookupStatic defaultMulticastEngine (udpHeaderTo 0xe0000005) (udpPacket 0 0) (some ⟨2, 2⟩)
        = .ok (some { m_dest := 0xe0000005, m_source := 0x0a000201, m_gateway := 0,
                      m_outputDevice := some ⟨2, 2⟩ }) ∧
    LookupStatic defaultMulticastEngine (udpHeaderTo 0xe0000005) (udpPacket 0 0) (some ⟨2, 2⟩)
        ≠ .ok (some (makeRoute defaultMulticastEngine
            (Ipv4RoutingTableEntry.CreateNetworkRouteTo 0xe0000000 0xf0000000 0 2))) ∧
    tiedCandidates defaultMulticastEngine 0xe0000005 none
        = [(Ipv4RoutingTableEntry.CreateNetworkRouteTo 0xe0000000 0xf0000000 0 2, 0)] ∧
    LookupStatic defaultMulticastEngine (udpHeaderTo 0xe0000005) (udpPacket 0 0) none
        = .error Fault.assertFailed := by
  refine ⟨by decide, rfl, ?_, by decide, rfl⟩
  intro h
  have h2 := Eq.trans (Eq.symm h)
    (rfl : LookupStatic defaultMulticastEngine (udpHeaderTo 0xe0000005) (udpPacket 0 0)
      (some ⟨2, 2⟩) = .ok (some ⟨0xe0000005, 0x0a000201, 0, some ⟨2, 2⟩⟩))
  injection h2 with h2
  injection h2 with h2
  exact absurd h2 (by decide)

/-- C3, amended: with both ECMP flags false and a destination that is not link-local
multicast, the candidate set of the lookup is exactly, in insertion order, the entries that
match (mask and, when a constraint device is given, device) with the maximal mask length
and, at that length, the minimal metric; the first of them is selected and the returned
route is built from it. -/
theorem lookupStatic_first_match (s : Ipv4StaticRouting) (header : Ipv4Header)
    (ipPayload : Packet) (oif : Option NetDevice)
    (hm : MetricsInRange s)
    (hr : s.m_randomEcmpRouting = false) (hf : s.m_flowEcmpRouting = false)
    (hlm : IsLocalMulticast header.GetDestination = false) :
    (scanRoutes s header.GetDestination oif).allRoutes
        = (tiedCandidates s header.GetDestination oif).map Prod.fst ∧
    selectRoute s header ipPayload oif
        = .ok ((tiedCandidates s header.GetDestination oif).head?.map Prod.fst) ∧
    LookupStatic s header ipPayload oif
        = .ok ((tiedCandidates s header.GetDestination oif).head?.map
            (fun p => makeRoute s p.1)) := by
  have h1 := scanRoutes_allRoutes s header.GetDestination oif hm
  have h2 : selectRoute s header ipPayload oif
      = .ok ((tiedCandidates s header.GetDestination oif).head?.map Prod.fst) := by
    rw [selectRoute_no_ecmp s header ipPayload oif hr hf, h1, List.head?_map]; rfl
  refine ⟨h1, h2, ?_⟩
  rw [lookupStatic_of_select s header ipPayload oif hr hlm, h2]
  cases (tiedCandidates s header.GetDestination oif).head? <;> rfl

/-- C3 amended, on a table with two tied `/16` entries after a worse `/16` and a `/8`:
destination `10.1.2.3` selects the earlier of the two tied entries, on interface 1. -/
theorem lookupStatic_first_match_witness :
    (scanRoutes tieEngine (udpHeaderTo 0x0a010203).GetDestination none).allRoutes
        = (tiedCandidates tieEngine (udpHeaderTo 0x0a010203).GetDestination none).map Prod.fst ∧
    selectRoute tieEngine (udpHeaderTo 0x0a010203) (udpPacket 0 0) none
        = .ok ((tiedCandidates tieEngine (udpHeaderTo 0x0a010203).GetDestination none).head?.map
            Prod.fst) ∧
    LookupStatic tieEngine (udpHeaderTo 0x0a010203) (udpPacket 0 0) none
        = .ok ((tiedCandidates tieEngine (udpHeaderTo 0x0a010203).GetDestination none).head?.map
            (fun p => makeRoute tieEngine p.1)) :=
  lookupStatic_first_match tieEngine (udpHeaderTo 0x0a010203) (udpPacket 0 0) none
    (by decide) rfl rfl rfl

/-- Unfolding of the acceptance test. -/
theorem isCandidate_iff (ipv4 : Ipv4) (dst : Nat) (oif : Option NetDevice)
    (p : Ipv4RoutingTableEntry × Nat) :
    isCandidate ipv4 dst oif p = true ↔
      IsMatch p.1.GetDestNetworkMask dst p.1.GetDestNetwork = true ∧
        (oif = none ∨ oif = ipv4.GetNetDevice p.1.GetInterface) := by
  unfold isCandidate
  rw [Bool.and_eq_true, Bool.or_eq_true, beq_iff_eq, beq_iff_eq]

/-- C4: with both ECMP flags false and a destination that is not link-local multicast,
`RouteOutput` returns the null route with `ERROR_NOROUTETOHOST` exactly when no entry has a
mask matching the destination and (when a constraint device is given) an interface bound to
that device; when there is such an entry it returns a non-null route with
`ERROR_NOTERROR`. -/
theorem routeOutput_hit_miss (s : Ipv4StaticRouting) (p : Packet) (header : Ipv4Header)
    (oif : Option NetDevice)
    (hm : MetricsInRange s)
    (hr : s.m_randomEcmpRouting = false) (hf : s.m_flowEcmpRouting = false)
    (hlm : IsLocalMulticast header.GetDestination = false) :
    (RouteOutput s p header oif = .ok (none, SocketErrno.ERROR_NOROUTETOHOST) ↔
      ¬ ∃ e ∈ s.m_networkRoutes,
          IsMatch e.1.GetDestNetworkMask header.GetDestination e.1.GetDestNetwork = true ∧
          (oif = none ∨ oif = s.m_ipv4.GetNetDevice e.1.GetInterface)) ∧
    ((∃ e ∈ s.m_networkRoutes,
          IsMatch e.1.GetDestNetworkMask header.GetDestination e.1.GetDestNetwork = true ∧
          (oif = none ∨ oif = s.m_ipv4.GetNetDevice e.1.GetInterface)) →
      ∃ rtentry, RouteOutput s p header oif = .ok (some rtentry, SocketErrno.ERROR_NOTERROR)) := by
  have hnil := scan_allRoutes_eq_nil_iff s header.GetDestination oif hm
  have hsel := selectRoute_no_ecmp s header p oif hr hf
  have hlook := lookupStatic_of_select s header p oif hr hlm
  have hex : (∃ e ∈ s.m_networkRoutes,
          IsMatch e.1.GetDestNetworkMask header.GetDestination e.1.GetDestNetwork = true ∧
          (oif = none ∨ oif = s.m_ipv4.GetNetDevice e.1.GetInterface)) ↔
      ¬ (scanRoutes s header.GetDestination oif).allRoutes = [] := by
    rw [hnil]
    constructor
    · rintro ⟨e, he, h1, h2⟩ hall
      have hc := (isCandidate_iff s.m_ipv4 header.GetDestination oif e).2 ⟨h1, h2⟩
      rw [hall e he] at hc
      exact absurd hc (by simp)
    · intro hall
      push_neg at hall
      obtain ⟨e, he, hc⟩ := hall
      have hc' : isCandidate s.m_ipv4 header.GetDestination oif e = true := by simpa using hc
      exact ⟨e, he, (isCandidate_iff s.m_ipv4 header.GetDestination oif e).1 hc'⟩
  rw [hex]
  cases hall : (scanRoutes s header.GetDestination oif).allRoutes with
  | nil =>
    have : RouteOutput s p header oif = .ok (none, SocketErrno.ERROR_NOROUTETOHOST) := by
      unfold RouteOutput
      rw [hlook, hsel, hall]; rfl
    simp [this]
  | cons a l =>
    have : RouteOutput s p header oif
        = .ok (some (makeRoute s a), SocketErrno.ERROR_NOTERROR) := by
      unfold RouteOutput
      rw [hlook, hsel, hall]; rfl
    rw [this]
    simp

/-- C4 at scenario 1: destination `11.0.0.1` matches no entry and gives no route. -/
theorem routeOutput_hit_miss_witness :
    (RouteOutput lpmEngine (udpPacket 0 0) (udpHeaderTo 0x0b000001) none
        = .ok (none, SocketErrno.ERROR_NOROUTETOHOST) ↔
      ¬ ∃ e ∈ lpmEngine.m_networkRoutes,
          IsMatch e.1.GetDestNetworkMask (udpHeaderTo 0x0b000001).GetDestination
            e.1.GetDestNetwork = true ∧
          ((none : Option NetDevice) = none
            ∨ none = lpmEngine.m_ipv4.GetNetDevice e.1.GetInterface)) ∧
    ((∃ e ∈ lpmEngine.m_networkRoutes,
          IsMatch e.1.GetDestNetworkMask (udpHeaderTo 0x0b000001).GetDestination
            e.1.GetDestNetwork = true ∧
          ((none : Option NetDevice) = none
            ∨ none = lpmEngine.m_ipv4.GetNetDevice e.1.GetInterface)) →
      ∃ rtentry, RouteOutput lpmEngine (udpPacket 0 0) (udpHeaderTo 0x0b000001) none
        = .ok (some rtentry, SocketErrno.ERROR_NOTERROR)) :=
  routeOutput_hit_miss lpmEngine (udpPacket 0 0) (udpHeaderTo 0x0b000001) none
    (by decide) rfl rfl rfl

/-- C5: on a destination that is not link-local multicast, the lookup constrained to the
device `oif` gives the result of the unconstrained lookup on the table restricted to the
entries whose interface has device `oif`, and a returned route has output device `oif`. -/
theorem lookupStatic_constraint_device (s : Ipv4StaticRouting) (header : Ipv4Header)
    (ipPayload : Packet) (oif : NetDevice)
    (hlm : IsLocalMulticast header.GetDestination = false) :
    LookupStatic s header ipPayload (some oif) =
      LookupStatic (restrictToDevice s oif) header ipPayload none ∧
    ∀ rtentry, LookupStatic s header ipPayload (some oif) = .ok (some rtentry) →
      rtentry.m_outputDevice = some oif := by
  have hscan : scanRoutes s header.GetDestination (some oif) =
      scanRoutes (restrictToDevice s oif) header.GetDestination none := by
    unfold scanRoutes
    exact scanStep_filter s.m_ipv4 header.GetDestination oif s.m_networkRoutes scanInit
  have hselEq : selectRoute s header ipPayload (some oif) =
      selectRoute (restrictToDevice s oif) header ipPayload none := by
    unfold selectRoute
    rw [hscan]
    rfl
  have hEq : LookupStatic s header ipPayload (some oif) =
      LookupStatic (restrictToDevice s oif) header ipPayload none := by
    unfold LookupStatic
    rw [hselEq]
    simp only [hlm, Bool.false_eq_true, if_false]
    rfl
  refine ⟨hEq, ?_⟩
  intro rtentry hrt
  unfold LookupStatic at hrt
  simp only [hlm, Bool.false_eq_true, if_false] at hrt
  split_ifs at hrt
  cases hsel : selectRoute s header ipPayload (some oif) with
  | error f => rw [hsel] at hrt; simp at hrt
  | ok o =>
    cases o with
    | none => rw [hsel] at hrt; simp at hrt
    | some route =>
      rw [hsel] at hrt
      have hrt' : makeRoute s route = rtentry := by
        injection hrt with h; injection h
      have hmem := selectRoute_mem s header ipPayload (some oif) route hsel
      rw [hscan] at hmem
      unfold scanRoutes at hmem
      rcases scan_allRoutes_subset _ _ _ _ _ route hmem with h | ⟨q, hq, hqr⟩
      · simp [scanInit] at h
      · simp only [restrictToDevice, List.mem_filter, decide_eq_true_eq] at hq
        rw [← hrt', ← hqr]
        exact hq.2

/-- C5 on a table with `10.0.0.0/8` and `10.1.0.0/16` via interface 1 and `10.0.0.0/8` with
metric 5 via interface 2: constrained to the device of interface 2, destination `10.1.2.3`
is routed as on the table holding only the interface-2 entry. -/
theorem lookupStatic_constraint_device_witness :
    LookupStatic deviceEngine (udpHeaderTo 0x0a010203) (udpPacket 0 0) (some ⟨2, 2⟩) =
      LookupStatic (restrictToDevice deviceEngine ⟨2, 2⟩)
        (udpHeaderTo 0x0a010203) (udpPacket 0 0) none ∧
    ∀ rtentry, LookupStatic deviceEngine (udpHeaderTo 0x0a010203) (udpPacket 0 0)
        (some ⟨2, 2⟩) = .ok (some rtentry) →
      rtentry.m_outputDevice = some ⟨2, 2⟩ :=
  lookupStatic_constraint_device deviceEngine (udpHeaderTo 0x0a010203) (udpPacket 0 0)
    ⟨2, 2⟩ rfl

/-- C6 fails on the code: with `FlowEcmpRouting` set, two tied `10.0.0.0/8` entries and a
UDP packet from `10.0.0.1` port 2 to `10.0.0.2` port 0, the flow hash is `0x14000016`, the
index `hash & 2` is 2, and `allRoutes.at (2)` on the two candidates fails. -/
theorem lookupStatic_flow_ecmp_out_of_range :
    (scanRoutes flowEngine (udpHeaderTo 0x0a000002).GetDestination none).allRoutes
        = [net8 1, net8 2] ∧
    HashHeaders (udpHeaderTo 0x0a000002) (udpPacket 2 0) = 0x14000016 ∧
    HashHeaders (udpHeaderTo 0x0a000002) (udpPacket 2 0) &&& 2 = 2 ∧
    selectRoute flowEngine (udpHeaderTo 0x0a000002) (udpPacket 2 0) none
        = .error Fault.outOfRange ∧
    LookupStatic flowEngine (udpHeaderTo 0x0a000002) (udpPacket 2 0) none
        = .error Fault.outOfRange := by
  refine ⟨rfl, rfl, rfl, rfl, rfl⟩

/-- C7: `HashHeaders` is the sum of source, destination, protocol number and, for UDP (17)
and TCP (6), both ports of the peeked transport header, taken modulo `2 ^ 32`; other
protocols add no port. -/
theorem hashHeaders_eq_sum (header : Ipv4Header) (ipPayload : Packet) :
    HashHeaders header ipPayload =
      (header.GetSource + header.GetDestination + header.GetProtocol +
        (if header.GetProtocol = 17 then
          ipPayload.peekUdpHeader.GetSourcePort + ipPayload.peekUdpHeader.GetDestinationPort
        else if header.GetProtocol = 6 then
          ipPayload.peekTcpHeader.GetSourcePort + ipPayload.peekTcpHeader.GetDestinationPort
        else 0)) % 2 ^ 32 := by
  unfold HashHeaders
  simp only [UDP_PROT_NUMBER, TCP_PROT_NUMBER]
  split_ifs <;> omega

/-- The multicast loop finds a route exactly when some entry passes the test. -/
theorem lookupStaticMulticastLoop_isSome (origin group interface : Nat)
    (table : List Ipv4MulticastRoutingTableEntry) :
    (LookupStaticMulticastLoop origin group interface table).isSome = true ↔
      ∃ e ∈ table, multicastTest group interface e := by
  induction table with
  | nil => simp [LookupStaticMulticastLoop]
  | cons route rest ih =>
    unfold LookupStaticMulticastLoop
    by_cases h : group = route.GetGroup ∧
        (interface = IF_ANY ∨ interface = route.GetInputInterface)
    · rw [if_pos h]
      simp only [Option.isSome_some, true_iff]
      exact ⟨route, by simp, h⟩
    · rw [if_neg h, ih]
      constructor
      · rintro ⟨e, he, hte⟩
        exact ⟨e, List.mem_cons_of_mem _ he, hte⟩
      · rintro ⟨e, he, hte⟩
        rcases List.mem_cons.1 he with he | he
        · subst he; exact absurd hte h
        · exact ⟨e, he, hte⟩

/-- Reading the TTL map after one assignment. -/
theorem getOutputTtl_setOutputTtl (m : List (Nat × Nat)) (oif ttl k : Nat) :
    GetOutputTtl (SetOutputTtl m oif ttl) k =
      if oif = k then some ttl else GetOutputTtl m k := by
  induction m with
  | nil => simp [SetOutputTtl, GetOutputTtl]
  | cons kv rest ih =>
    obtain ⟨k0, v0⟩ := kv
    unfold SetOutputTtl
    by_cases h : k0 = oif
    · subst h
      rw [if_pos rfl]
      simp only [GetOutputTtl]
      split_ifs <;> rfl
    · rw [if_neg h]
      simp only [GetOutputTtl]
      rw [ih]
      by_cases h2 : k0 = k
      · have : ¬ oif = k := fun h3 => h (h2.trans h3.symm)
        simp [h2, this]
      · simp [h2]

/-- Reading the TTL map after the loop over the output interfaces. -/
theorem getOutputTtl_foldl (outs : List Nat) (m : List (Nat × Nat)) (k : Nat) :
    GetOutputTtl
        (outs.foldl (fun m o => if o ≠ 0 then SetOutputTtl m o (MAX_TTL - 1) else m) m) k =
      if k ≠ 0 ∧ k ∈ outs then some (MAX_TTL - 1) else GetOutputTtl m k := by
  induction outs generalizing m with
  | nil => simp
  | cons o rest ih =>
    simp only [List.foldl_cons]
    rw [ih]
    by_cases hk : k ≠ 0 ∧ k ∈ rest
    · have : k ≠ 0 ∧ k ∈ o :: rest := ⟨hk.1, List.mem_cons_of_mem _ hk.2⟩
      rw [if_pos hk, if_pos this]
    · rw [if_neg hk]
      by_cases ho : o ≠ 0
      · rw [if_pos ho, getOutputTtl_setOutputTtl]
        by_cases hok : o = k
        · subst hok
          rw [if_pos rfl, if_pos ⟨ho, by simp⟩]
        · rw [if_neg hok]
          have : ¬ (k ≠ 0 ∧ k ∈ o :: rest) := by
            rintro ⟨h0, hmem⟩
            rcases List.mem_cons.1 hmem with h | h
            · exact hok h.symm
            · exact hk ⟨h0, h⟩
          rw [if_neg this]
      · rw [if_neg ho]
        have : ¬ (k ≠ 0 ∧ k ∈ o :: rest) := by
          rintro ⟨h0, hmem⟩
          rcases List.mem_cons.1 hmem with h | h
          · subst h; exact ho h0
          · exact hk ⟨h0, h⟩
        rw [if_neg this]

/-- A route found by the multicast loop is built from the first entry passing the test. -/
theorem lookupStaticMulticastLoop_first (origin group interface : Nat)
    (table : List Ipv4MulticastRoutingTableEntry) (mrtentry : Ipv4MulticastRoute)
    (h : LookupStaticMulticastLoop origin group interface table = some mrtentry) :
    ∃ pre e post, table = pre ++ e :: post ∧
      (∀ x ∈ pre, ¬ multicastTest group interface x) ∧ multicastTest group interface e ∧
      mrtentry = { m_group := e.GetGroup, m_origin := e.GetOrigin,
                   m_parent := e.GetInputInterface,
                   m_ttls := setOutputTtls e.m_outputInterfaces [] } := by
  induction table with
  | nil => simp [LookupStaticMulticastLoop] at h
  | cons route rest ih =>
    unfold LookupStaticMulticastLoop at h
    by_cases ht : group = route.GetGroup ∧
        (interface = IF_ANY ∨ interface = route.GetInputInterface)
    · rw [if_pos ht] at h
      injection h with h
      exact ⟨[], route, rest, rfl, by simp, ht, h.symm⟩
    · rw [if_neg ht] at h
      obtain ⟨pre, e, post, h1, h2, h3, h4⟩ := ih h
      refine ⟨route :: pre, e, post, by rw [h1]; rfl, ?_, h3, h4⟩
      intro x hx
      rcases List.mem_cons.1 hx with hx | hx
      · subst hx; exact ht
      · exact h2 x hx

/-- The multicast lookup finds a route exactly when some entry passes the test. -/
theorem multicastLoop_found_iff (s : Ipv4StaticRouting)
    (origin group interface : Nat) :
    (LookupStaticMulticast s origin group interface).isSome = true ↔
      ∃ e ∈ s.m_multicastRoutes, multicastTest group interface e := by
  unfold LookupStaticMulticast
  exact lookupStaticMulticastLoop_isSome origin group interface s.m_multicastRoutes

/-- C8 as stated fails: with the single multicast route of scenario 8 (group `224.1.2.3`,
input interface `IF_ANY`, outputs 1 and 2), a query for that group on interface 0 finds an
entry whose group is the query group and whose input interface is `IF_ANY`, yet the lookup
returns null, and `RouteInput` on interface 0 invokes no callback and returns false. -/
theorem lookupStaticMulticast_if_any_counterexample :
    (∃ e ∈ anyInputEngine.m_multicastRoutes,
      e.GetGroup = 0xe0010203 ∧ (e.GetInputInterface = 0 ∨ e.GetInputInterface = IF_ANY)) ∧
    LookupStaticMulticast anyInputEngine 0x0a000005 0xe0010203 0 = none ∧
    RouteInput anyInputEngine (udpPacket 0 0)
        { m_source := 0x0a000005, m_destination := 0xe0010203, m_protocol := 17 }
        (some ⟨0, 0⟩) = .ok ([], false) := by
  refine ⟨?_, rfl, rfl⟩
  exact ⟨_, List.mem_singleton.2 rfl, rfl, Or.inr rfl⟩

/-- C8, amended: the multicast `LookupStatic` returns a route if and only if the table holds
an entry whose group equals the query group and whose input interface equals the query
interface, or the query interface itself is `IF_ANY`. -/
theorem lookupStaticMulticast_match_rule (s : Ipv4StaticRouting)
    (origin group interface : Nat) :
    (LookupStaticMulticast s origin group interface).isSome = true ↔
      ∃ e ∈ s.m_multicastRoutes,
        group = e.GetGroup ∧ (interface = IF_ANY ∨ interface = e.GetInputInterface) := by
  unfold LookupStaticMulticast
  exact lookupStaticMulticastLoop_isSome origin group interface s.m_multicastRoutes

/-- C9 as stated fails: the table holds two routes for `224.1.2.3`, the first with input
interface `IF_ANY` and output 1, the second with input interface 0 and output 2. For a
packet arriving on interface 0 the first route in insertion order that matches by the rule
of the specification is the first one, yet the lookup builds its route from the second one:
origin `10.0.0.7`, parent 0 and TTL `MAX_TTL - 1` on interface 2 only, and `RouteInput` hands
that route to the multicast forward callback. -/
theorem lookupStaticMulticast_result_counterexample :
    (∃ e post, wildcardFirstEngine.m_multicastRoutes = [] ++ e :: post ∧
      specMulticastMatch 0xe0010203 0 e ∧
      e.GetOrigin = 0x0a000005 ∧ e.GetInputInterface = IF_ANY ∧ e.m_outputInterfaces = [1]) ∧
    LookupStaticMulticast wildcardFirstEngine 0x0a000009 0xe0010203 0
      = some { m_group := 0xe0010203, m_origin := 0x0a000007, m_parent := 0,
               m_ttls := [(2, 254)] } ∧
    GetOutputTtl [(2, 254)] 1 = none ∧
    GetOutputTtl [(2, 254)] 2 = some (MAX_TTL - 1) ∧
    RouteInput wildcardFirstEngine (udpPacket 0 0)
        { m_source := 0x0a000009, m_destination := 0xe0010203, m_protocol := 17 }
        (some ⟨0, 0⟩)
      = .ok ([CallbackEvent.mcb
                { m_group := 0xe0010203, m_origin := 0x0a000007, m_parent := 0,
                  m_ttls := [(2, 254)] }
                (udpPacket 0 0)
                { m_source := 0x0a000009, m_destination := 0xe0010203, m_protocol := 17 }],
             true) := by
  refine ⟨⟨_, _, rfl, by decide, rfl, rfl, rfl⟩, rfl, rfl, rfl, rfl⟩

/-- C9, amended: a route returned by the multicast `LookupStatic` is built from the first
entry, in insertion order, that passes the test of the code on group and input interface
(the groups are equal and the query interface is `IF_ANY` or the input interface of the
entry), whatever the origins are: group, origin and parent are the entry's group, origin
and input interface, and the TTL map binds `MAX_TTL - 1` to exactly the non-zero indices
among the entry's output interfaces; when no entry passes the test the result is null. -/
theorem lookupStaticMulticast_result (s : Ipv4StaticRouting) (origin group interface : Nat) :
    (∀ mrtentry, LookupStaticMulticast s origin group interface = some mrtentry →
      ∃ pre e post, s.m_multicastRoutes = pre ++ e :: post ∧
        (∀ x ∈ pre, ¬ multicastTest group interface x) ∧ multicastTest group interface e ∧
        mrtentry.m_group = e.GetGroup ∧ mrtentry.m_origin = e.GetOrigin ∧
        mrtentry.m_parent = e.GetInputInterface ∧
        ∀ k, GetOutputTtl mrtentry.m_ttls k =
          if k ≠ 0 ∧ k ∈ e.m_outputInterfaces then some (MAX_TTL - 1) else none) ∧
    ((∀ e ∈ s.m_multicastRoutes, ¬ multicastTest group interface e) →
      LookupStaticMulticast s origin group interface = none) := by
  constructor
  · intro mrtentry h
    obtain ⟨pre, e, post, h1, h2, h3, h4⟩ :=
      lookupStaticMulticastLoop_first origin group interface s.m_multicastRoutes mrtentry h
    refine ⟨pre, e, post, h1, h2, h3, ?_, ?_, ?_, ?_⟩
    · rw [h4]
    · rw [h4]
    · rw [h4]
    · intro k
      rw [h4]
      simp only [setOutputTtls]
      rw [getOutputTtl_foldl]
      rfl
  · intro hnone
    have := multicastLoop_found_iff s origin group interface
    cases hL : LookupStaticMulticast s origin group interface with
    | none => rfl
    | some rt =>
      rw [hL] at this
      obtain ⟨e, he, hte⟩ := this.1 rfl
      exact absurd hte (hnone e he)

/-- C9 amended, on a table of three routes for `224.1.2.3`: a query on interface 1 skips
the first route (input interface 3) and is answered from the second (input interface 1,
outputs 2, 0, 3, 2), with TTL `MAX_TTL - 1` on interfaces 2 and 3 only. -/
theorem lookupStaticMulticast_result_witness :
    ∃ pre e post, multicastEngine.m_multicastRoutes = pre ++ e :: post ∧
      (∀ x ∈ pre, ¬ multicastTest 0xe0010203 1 x) ∧ multicastTest 0xe0010203 1 e ∧
      (0xe0010203 : Nat) = e.GetGroup ∧ (0x0a000007 : Nat) = e.GetOrigin ∧
      (1 : Nat) = e.GetInputInterface ∧
      ∀ k, GetOutputTtl [(2, 254), (3, 254)] k =
        if k ≠ 0 ∧ k ∈ e.m_outputInterfaces then some (MAX_TTL - 1) else none :=
  (lookupStaticMulticast_result multicastEngine 0x0a000001 0xe0010203 1).1
    ⟨0xe0010203, 0x0a000007, 1, [(2, 254), (3, 254)]⟩ rfl

/-- The address loop either falls through or delivers locally with the ingress index. -/
theorem routeInputAddresses_cases (ipv4 : Ipv4) (p : Packet) (ipHeader : Ipv4Header)
    (iif j : Nat) (l : List Nat) :
    routeInputAddresses ipv4 p ipHeader iif j l = none ∨
      routeInputAddresses ipv4 p ipHeader iif j l
        = some ([CallbackEvent.lcb p ipHeader iif], true) := by
  induction l with
  | nil => exact Or.inl rfl
  | cons i rest ih =>
    unfold routeInputAddresses
    simp only
    split_ifs
    · exact Or.inr rfl
    · exact Or.inr rfl
    · exact ih

/-- The address loop delivers locally when one of the visited addresses is the destination. -/
theorem routeInputAddresses_local (ipv4 : Ipv4) (p : Packet) (ipHeader : Ipv4Header)
    (iif j i : Nat) (l : List Nat) (hi : i ∈ l)
    (hloc : (ipv4.GetAddress j i).GetLocal = ipHeader.GetDestination) :
    routeInputAddresses ipv4 p ipHeader iif j l
      = some ([CallbackEvent.lcb p ipHeader iif], true) := by
  induction l with
  | nil => simp at hi
  | cons i0 rest ih =>
    unfold routeInputAddresses
    simp only
    split_ifs with h1 h2
    · rfl
    · rfl
    · rcases List.mem_cons.1 hi with h | h
      · subst h; exact absurd hloc h1
      · exact ih h

/-- The interface loop delivers locally when an address of a visited interface is the
destination. -/
theorem routeInputInterfaces_local (ipv4 : Ipv4) (p : Packet) (ipHeader : Ipv4Header)
    (iif j i : Nat) (js : List Nat) (hj : j ∈ js) (hi : i < ipv4.GetNAddresses j)
    (hloc : (ipv4.GetAddress j i).GetLocal = ipHeader.GetDestination) :
    routeInputInterfaces ipv4 p ipHeader iif js
      = some ([CallbackEvent.lcb p ipHeader iif], true) := by
  induction js with
  | nil => simp at hj
  | cons j0 rest ih =>
    unfold routeInputInterfaces
    rcases routeInputAddresses_cases ipv4 p ipHeader iif j0
        (List.range (ipv4.GetNAddresses j0)) with h | h
    · rw [h]
      simp only
      rcases List.mem_cons.1 hj with hj0 | hj0
      · subst hj0
        have := routeInputAddresses_local ipv4 p ipHeader iif j i
          (List.range (ipv4.GetNAddresses j)) (List.mem_range.2 hi) hloc
        rw [h] at this
        exact absurd this (by simp)
      · exact ih hj0
    · rw [h]

/-- C10: when the destination is not multicast and equals the local address of an address
of some interface `j` (the ingress interface or another), `RouteInput` invokes the
local-deliver callback once, with the ingress index `iif`, invokes nothing else and returns
true, whatever the forwarding flags, the ECMP flags and the routing tables are. -/
theorem routeInput_local_delivery (s : Ipv4StaticRouting) (p : Packet)
    (ipHeader : Ipv4Header) (idev : Option NetDevice) (iif j i : Nat)
    (hdev : s.m_ipv4.GetInterfaceForDevice idev = (iif : Int))
    (hmc : IsMulticast ipHeader.GetDestination = false)
    (hj : j < s.m_ipv4.GetNInterfaces) (hi : i < s.m_ipv4.GetNAddresses j)
    (hloc : (s.m_ipv4.GetAddress j i).GetLocal = ipHeader.GetDestination) :
    RouteInput s p ipHeader idev = .ok ([CallbackEvent.lcb p ipHeader iif], true) := by
  unfold RouteInput
  have hnn : ¬ s.m_ipv4.GetInterfaceForDevice idev < 0 := by rw [hdev]; omega
  rw [if_neg hnn]
  simp only [hmc, Bool.false_eq_true, if_false, hdev, Int.toNat_ofNat]
  rw [routeInputInterfaces_local s.m_ipv4 p ipHeader iif j i
    (List.range s.m_ipv4.GetNInterfaces) (List.mem_range.2 hj) hi hloc]

/-- C10 at scenario 7: interface 0 has `10.0.0.1/24`, interface 1 has `10.0.1.1/24`; a packet
arriving on interface 0 for `10.0.1.1` is delivered locally with `iif = 0`. -/
theorem routeInput_local_delivery_witness :
    RouteInput lpmEngine (udpPacket 0 0) (udpHeaderTo 0x0a000101) (some ⟨0, 0⟩)
      = .ok ([CallbackEvent.lcb (udpPacket 0 0) (udpHeaderTo 0x0a000101) 0], true) :=
  routeInput_local_delivery lpmEngine (udpPacket 0 0) (udpHeaderTo 0x0a000101) (some ⟨0, 0⟩)
    0 1 0 rfl rfl (by decide) (by decide) rfl

/-- The address loop falls through when no visited address has the destination as local
or broadcast address. -/
theorem routeInputAddresses_none (ipv4 : Ipv4) (p : Packet) (ipHeader : Ipv4Header)
    (iif j : Nat) (l : List Nat)
    (h : ∀ i ∈ l, (ipv4.GetAddress j i).GetLocal ≠ ipHeader.GetDestination ∧
      (ipv4.GetAddress j i).GetBroadcast ≠ ipHeader.GetDestination) :
    routeInputAddresses ipv4 p ipHeader iif j l = none := by
  induction l with
  | nil => rfl
  | cons i rest ih =>
    unfold routeInputAddresses
    have hi := h i (by simp)
    simp only
    rw [if_neg hi.1, if_neg (fun hb => hi.2 hb.symm)]
    exact ih (fun k hk => h k (List.mem_cons_of_mem _ hk))

/-- The interface loop falls through when no address of a visited interface has the
destination as local or broadcast address. -/
theorem routeInputInterfaces_none (ipv4 : Ipv4) (p : Packet) (ipHeader : Ipv4Header)
    (iif : Nat) (js : List Nat)
    (h : ∀ j ∈ js, ∀ i, i < ipv4.GetNAddresses j →
      (ipv4.GetAddress j i).GetLocal ≠ ipHeader.GetDestination ∧
      (ipv4.GetAddress j i).GetBroadcast ≠ ipHeader.GetDestination) :
    routeInputInterfaces ipv4 p ipHeader iif js = none := by
  induction js with
  | nil => rfl
  | cons j rest ih =>
    unfold routeInputInterfaces
    rw [routeInputAddresses_none ipv4 p ipHeader iif j _
      (fun i hi => h j (by simp) i (List.mem_range.1 hi))]
    exact ih (fun k hk => h k (List.mem_cons_of_mem _ hk))

/-- The interface loop either falls through or delivers locally with the ingress index. -/
theorem routeInputInterfaces_cases (ipv4 : Ipv4) (p : Packet) (ipHeader : Ipv4Header)
    (iif : Nat) (js : List Nat) :
    routeInputInterfaces ipv4 p ipHeader iif js = none ∨
      routeInputInterfaces ipv4 p ipHeader iif js
        = some ([CallbackEvent.lcb p ipHeader iif], true) := by
  induction js with
  | nil => exact Or.inl rfl
  | cons j rest ih =>
    unfold routeInputInterfaces
    rcases routeInputAddresses_cases ipv4 p ipHeader iif j
        (List.range (ipv4.GetNAddresses j)) with h | h
    · rw [h]; exact ih
    · rw [h]; exact Or.inr rfl

/-- C11: for a known ingress device with index `iif` whose forwarding flag is false, and a
destination that is not multicast and is neither the local nor the broadcast address of any
address of any interface, `RouteInput` invokes the error callback once, with
`ERROR_NOROUTETOHOST`, invokes no other callback (the routing table is not read) and returns
false. -/
theorem routeInput_forwarding_disabled (s : Ipv4StaticRouting) (p : Packet)
    (ipHeader : Ipv4Header) (idev : Option NetDevice) (iif : Nat)
    (hdev : s.m_ipv4.GetInterfaceForDevice idev = (iif : Int))
    (hmc : IsMulticast ipHeader.GetDestination = false)
    (hno : ∀ j, j < s.m_ipv4.GetNInterfaces → ∀ i, i < s.m_ipv4.GetNAddresses j →
      (s.m_ipv4.GetAddress j i).GetLocal ≠ ipHeader.GetDestination ∧
      (s.m_ipv4.GetAddress j i).GetBroadcast ≠ ipHeader.GetDestination)
    (hfwd : s.m_ipv4.IsForwarding iif = false) :
    RouteInput s p ipHeader idev
      = .ok ([CallbackEvent.ecb p ipHeader SocketErrno.ERROR_NOROUTETOHOST], false) := by
  unfold RouteInput
  have hnn : ¬ s.m_ipv4.GetInterfaceForDevice idev < 0 := by rw [hdev]; omega
  rw [if_neg hnn]
  simp only [hmc, Bool.false_eq_true, if_false, hdev, Int.toNat_ofNat]
  rw [routeInputInterfaces_none s.m_ipv4 p ipHeader iif _
    (fun j hj => hno j (List.mem_range.1 hj))]
  simp only [hfwd, if_true]

/-- C11 on scenario 1 with forwarding disabled: a packet for `10.1.2.3` arriving on
interface 0 is matched by both routes of the table, yet only the error callback is
invoked. -/
theorem routeInput_forwarding_disabled_witness :
    RouteInput nonForwardingEngine (udpPacket 0 0) (udpHeaderTo 0x0a010203) (some ⟨0, 0⟩)
      = .ok ([CallbackEvent.ecb (udpPacket 0 0) (udpHeaderTo 0x0a010203)
          SocketErrno.ERROR_NOROUTETOHOST], false) :=
  routeInput_forwarding_disabled nonForwardingEngine (udpPacket 0 0) (udpHeaderTo 0x0a010203)
    (some ⟨0, 0⟩) 0 rfl rfl (by decide) rfl

/-- C12: a call of `RouteInput` that returns has invoked at most one callback, and it
returns true exactly when it invoked a callback other than the error callback (the unicast
forward, multicast forward or local deliver callback). -/
theorem routeInput_callback_discipline (s : Ipv4StaticRouting) (p : Packet)
    (ipHeader : Ipv4Header) (idev : Option NetDevice) (events : List CallbackEvent) (b : Bool)
    (hret : RouteInput s p ipHeader idev = .ok (events, b)) :
    events.length ≤ 1 ∧ (b = true ↔ ∃ e ∈ events, isErrorCallback e = false) := by
  unfold RouteInput at hret
  by_cases h1 : s.m_ipv4.GetInterfaceForDevice idev < 0
  · rw [if_pos h1] at hret
    exact absurd hret (by simp)
  rw [if_neg h1] at hret
  simp only at hret
  by_cases h2 : IsMulticast ipHeader.GetDestination = true
  · rw [if_pos h2] at hret
    cases hL : LookupStaticMulticast s ipHeader.GetSource ipHeader.GetDestination
        (s.m_ipv4.GetInterfaceForDevice idev).toNat with
    | none =>
      rw [hL] at hret
      simp only [Except.ok.injEq, Prod.mk.injEq] at hret
      obtain ⟨he, hb⟩ := hret
      subst he; subst hb
      exact ⟨by simp, by simp⟩
    | some mrtentry =>
      rw [hL] at hret
      simp only [Except.ok.injEq, Prod.mk.injEq] at hret
      obtain ⟨he, hb⟩ := hret
      subst he; subst hb
      exact ⟨by simp, by simp [isErrorCallback]⟩
  · rw [if_neg h2] at hret
    rcases routeInputInterfaces_cases s.m_ipv4 p ipHeader
        (s.m_ipv4.GetInterfaceForDevice idev).toNat (List.range s.m_ipv4.GetNInterfaces)
      with h | h
    · rw [h] at hret
      simp only at hret
      by_cases h3 : s.m_ipv4.IsForwarding (s.m_ipv4.GetInterfaceForDevice idev).toNat = false
      · rw [if_pos h3] at hret
        simp only [Except.ok.injEq, Prod.mk.injEq] at hret
        obtain ⟨he, hb⟩ := hret
        subst he; subst hb
        exact ⟨by simp, by simp [isErrorCallback]⟩
      · rw [if_neg h3] at hret
        cases hU : LookupStatic s ipHeader p none with
        | error f =>
          rw [hU] at hret
          exact absurd hret (by simp)
        | ok o =>
          cases o with
          | none =>
            rw [hU] at hret
            simp only [Except.ok.injEq, Prod.mk.injEq] at hret
            obtain ⟨he, hb⟩ := hret
            subst he; subst hb
            exact ⟨by simp, by simp⟩
          | some rtentry =>
            rw [hU] at hret
            simp only [Except.ok.injEq, Prod.mk.injEq] at hret
            obtain ⟨he, hb⟩ := hret
            subst he; subst hb
            exact ⟨by simp, by simp [isErrorCallback]⟩
    · rw [h] at hret
      simp only [Except.ok.injEq, Prod.mk.injEq] at hret
      obtain ⟨he, hb⟩ := hret
      subst he; subst hb
      exact ⟨by simp, by simp [isErrorCallback]⟩

/-- C12 at scenario 7: the call delivers locally, one callback, and returns true. -/
theorem routeInput_callback_discipline_witness :
    [CallbackEvent.lcb (udpPacket 0 0) (udpHeaderTo 0x0a000101) 0].length ≤ 1 ∧
      (true = true ↔ ∃ e ∈ [CallbackEvent.lcb (udpPacket 0 0) (udpHeaderTo 0x0a000101) 0],
        isErrorCallback e = false) :=
  routeInput_callback_discipline lpmEngine (udpPacket 0 0) (udpHeaderTo 0x0a000101)
    (some ⟨0, 0⟩) _ _ rfl

/-- C13 fails on the code: with the default route `0.0.0.0/0` via `192.168.1.1` on interface
0, forwarding enabled and no interface whose broadcast address is `255.255.255.255`, a packet
for `255.255.255.255` arriving on interface 1 is not multicast, passes the broadcast test of
line 606 (which only logs), matches the default route and is handed to the unicast forward
callback; `RouteInput` returns true. -/
theorem routeInput_forwards_limited_broadcast :
    IsBroadcast broadcastHeader.GetDestination = true ∧
    IsMulticast broadcastHeader.GetDestination = false ∧
    defaultRouteEngine.m_ipv4.IsForwarding 1 = true ∧
    RouteInput defaultRouteEngine (udpPacket 0 0) broadcastHeader (some ⟨1, 1⟩)
      = .ok ([CallbackEvent.ucb
                { m_dest := 0, m_source := 0x0a000001, m_gateway := 0xc0a80101,
                  m_outputDevice := some ⟨0, 0⟩ }
                (udpPacket 0 0) broadcastHeader], true) := by
  refine ⟨rfl, rfl, rfl, rfl⟩

/-- C14: for a multicast destination the result of `RouteInput` is the same on two engines
that agree on the multicast table and on the interface index of the ingress device, whatever
their network routes, ECMP flags and other stack data are; in particular, on an empty
multicast table and a known ingress device, `RouteInput` after `SetDefaultMulticastRoute`
invokes no callback and returns false. -/
theorem routeInput_multicast_ignores_network_routes (s1 s2 : Ipv4StaticRouting) (p : Packet)
    (ipHeader : Ipv4Header) (idev : Option NetDevice)
    (hmc : IsMulticast ipHeader.GetDestination = true)
    (hmt : s1.m_multicastRoutes = s2.m_multicastRoutes)
    (hif : s1.m_ipv4.GetInterfaceForDevice idev = s2.m_ipv4.GetInterfaceForDevice idev) :
    RouteInput s1 p ipHeader idev = RouteInput s2 p ipHeader idev ∧
    (s1.m_multicastRoutes = [] → 0 ≤ s1.m_ipv4.GetInterfaceForDevice idev →
      ∀ outputInterface,
        RouteInput (SetDefaultMulticastRoute s1 outputInterface) p ipHeader idev
          = .ok ([], false)) := by
  constructor
  · unfold RouteInput
    simp only [hmc, if_true, hif]
    unfold LookupStaticMulticast
    rw [hmt]
  · intro hnil hknown outputInterface
    unfold RouteInput
    have hnn : ¬ (SetDefaultMulticastRoute s1 outputInterface).m_ipv4.GetInterfaceForDevice idev
        < 0 := by
      show ¬ s1.m_ipv4.GetInterfaceForDevice idev < 0
      omega
    rw [if_neg hnn]
    simp only [hmc, if_true]
    have : LookupStaticMulticast (SetDefaultMulticastRoute s1 outputInterface)
        ipHeader.GetSource ipHeader.GetDestination
        ((SetDefaultMulticastRoute s1 outputInterface).m_ipv4.GetInterfaceForDevice idev).toNat
        = none := by
      unfold LookupStaticMulticast
      show LookupStaticMulticastLoop _ _ _ s1.m_multicastRoutes = none
      rw [hnil]; rfl
    rw [this]

/-- C14 on the multicast table of three routes for `224.1.2.3`: a packet arriving on
interface 1 gives the same result whether the network routes are empty or hold the default
multicast route; and on scenario 1, whose multicast table is empty, the call after
`SetDefaultMulticastRoute (2)` invokes no callback and returns false. -/
theorem routeInput_multicast_ignores_network_routes_witness :
    RouteInput multicastEngine (udpPacket 0 0) multicastHeader (some ⟨1, 1⟩)
      = RouteInput (SetDefaultMulticastRoute multicastEngine 2) (udpPacket 0 0)
          multicastHeader (some ⟨1, 1⟩) ∧
    RouteInput (SetDefaultMulticastRoute lpmEngine 2) (udpPacket 0 0) multicastHeader
      (some ⟨1, 1⟩) = .ok ([], false) :=
  ⟨(routeInput_multicast_ignores_network_routes multicastEngine
      (SetDefaultMulticastRoute multicastEngine 2) (udpPacket 0 0) multicastHeader
      (some ⟨1, 1⟩) rfl rfl rfl).1,
   (routeInput_multicast_ignores_network_routes lpmEngine lpmEngine (udpPacket 0 0)
      multicastHeader (some ⟨1, 1⟩) rfl rfl rfl).2 rfl (by decide) 2⟩

/-- The loop of `NotifyInterfaceDown` keeps, in order, the nodes whose route does not go
through the interface. -/
theorem notifyInterfaceDownLoop_eq_filter (i : Nat) (l : List (Ipv4RoutingTableEntry × Nat)) :
    NotifyInterfaceDownLoop i l = l.filter (fun e => decide (e.1.GetInterface ≠ i)) := by
  induction l with
  | nil => rfl
  | cons it rest ih =>
    unfold NotifyInterfaceDownLoop
    by_cases h : it.1.GetInterface = i
    · rw [if_pos h, ih, List.filter_cons]
      simp [h]
    · rw [if_neg h, ih, List.filter_cons]
      simp [h]

/-- C15: after `NotifyInterfaceDown (i)` the list of network routes is the previous list
with the nodes whose route goes through interface `i` deleted, the other nodes keeping their
order and metrics, so no route through `i` remains; the multicast table is unchanged. -/
theorem notifyInterfaceDown_purges (s : Ipv4StaticRouting) (i : Nat) :
    (NotifyInterfaceDown s i).m_networkRoutes
      = s.m_networkRoutes.filter (fun e => decide (e.1.GetInterface ≠ i)) ∧
    (∀ e ∈ (NotifyInterfaceDown s i).m_networkRoutes, e.1.GetInterface ≠ i) ∧
    (NotifyInterfaceDown s i).m_multicastRoutes = s.m_multicastRoutes := by
  have h : (NotifyInterfaceDown s i).m_networkRoutes
      = s.m_networkRoutes.filter (fun e => decide (e.1.GetInterface ≠ i)) :=
    notifyInterfaceDownLoop_eq_filter i s.m_networkRoutes
  refine ⟨h, ?_, rfl⟩
  intro e he
  rw [h, List.mem_filter] at he
  simpa using he.2

/-- Scenario 6, an instance of C15: with routes via interfaces 1, 2 and 3,
`NotifyInterfaceDown (2)` leaves the routes via interfaces 1 and 3 with their metrics. -/
theorem notifyInterfaceDown_scenario :
    (NotifyInterfaceDown threeInterfaceEngine 2).m_networkRoutes = [(net8 1, 0), (net8 3, 9)] := by
  decide

/-- The loop of `NotifyInterfaceUp` appends the connected routes of the qualifying addresses,
in order, and touches nothing else. -/
theorem notifyInterfaceUp_foldl (i : Nat) (l : List Nat) (s : Ipv4StaticRouting) :
    (l.foldl (notifyInterfaceUpStep i) s).m_networkRoutes
      = s.m_networkRoutes ++
        ((l.map (s.m_ipv4.GetAddress i)).filter
          (fun a => decide (a.GetLocal ≠ 0 ∧ a.GetMask ≠ 0 ∧ a.GetMask ≠ 0xffffffff))).map
          (connectedRoute i) ∧
    (l.foldl (notifyInterfaceUpStep i) s).m_multicastRoutes = s.m_multicastRoutes ∧
    (l.foldl (notifyInterfaceUpStep i) s).m_ipv4 = s.m_ipv4 := by
  induction l generalizing s with
  | nil => simp
  | cons j rest ih =>
    simp only [List.foldl_cons]
    by_cases hc : (s.m_ipv4.GetAddress i j).GetLocal ≠ Ipv4Address.defaultValue ∧
        (s.m_ipv4.GetAddress i j).GetMask ≠ Ipv4Mask.defaultValue ∧
        (s.m_ipv4.GetAddress i j).GetMask ≠ Ipv4Mask.GetOnes
    · have hstep : notifyInterfaceUpStep i s j
          = { s with m_networkRoutes := s.m_networkRoutes ++
                [connectedRoute i (s.m_ipv4.GetAddress i j)] } := by
        unfold notifyInterfaceUpStep
        rw [if_pos hc]
        rfl
      have hc2 : (s.m_ipv4.GetAddress i j).GetLocal ≠ 0 ∧
          (s.m_ipv4.GetAddress i j).GetMask ≠ 0 ∧
          (s.m_ipv4.GetAddress i j).GetMask ≠ 0xffffffff := hc
      rw [hstep]
      obtain ⟨h1, h2, h3⟩ := ih { s with m_networkRoutes := s.m_networkRoutes ++
                [connectedRoute i (s.m_ipv4.GetAddress i j)] }
      simp only at h1 h2 h3
      refine ⟨?_, h2, h3⟩
      rw [h1, List.map_cons, List.filter_cons, if_pos (decide_eq_true hc2), List.map_cons,
        List.append_assoc]
      rfl
    · have hstep : notifyInterfaceUpStep i s j = s := by
        unfold notifyInterfaceUpStep
        rw [if_neg hc]
      have hc2 : ¬ ((s.m_ipv4.GetAddress i j).GetLocal ≠ 0 ∧
          (s.m_ipv4.GetAddress i j).GetMask ≠ 0 ∧
          (s.m_ipv4.GetAddress i j).GetMask ≠ 0xffffffff) := hc
      rw [hstep]
      obtain ⟨h1, h2, h3⟩ := ih s
      refine ⟨?_, h2, h3⟩
      have hd : ¬ decide ((s.m_ipv4.GetAddress i j).GetLocal ≠ 0 ∧
          (s.m_ipv4.GetAddress i j).GetMask ≠ 0 ∧
          (s.m_ipv4.GetAddress i j).GetMask ≠ 0xffffffff) = true := by
        rw [decide_eq_true_iff]; exact hc2
      rw [h1, List.map_cons, List.filter_cons, if_neg hd]

/-- C16: `NotifyInterfaceUp (i)` leaves the existing nodes in place and appends, in address
order, one node `(local AND mask, mask, interface i, gateway 0.0.0.0)` with metric 0 for each
address of `i` whose local address is non-zero and whose mask is neither zero nor all-ones,
and nothing for the other addresses; the multicast table is unchanged. -/
theorem notifyInterfaceUp_appends_connected_routes (s : Ipv4StaticRouting) (i : Nat) :
    (NotifyInterfaceUp s i).m_networkRoutes
      = s.m_networkRoutes ++
        (((List.range (s.m_ipv4.GetNAddresses i)).map (s.m_ipv4.GetAddress i)).filter
          (fun a => decide (a.GetLocal ≠ 0 ∧ a.GetMask ≠ 0 ∧ a.GetMask ≠ 0xffffffff))).map
          (fun a =>
            (({ m_dest := a.GetLocal &&& a.GetMask, m_destNetworkMask := a.GetMask,
                m_gateway := 0, m_interface := i } : Ipv4RoutingTableEntry), 0)) ∧
    (NotifyInterfaceUp s i).m_multicastRoutes = s.m_multicastRoutes := by
  have h := notifyInterfaceUp_foldl i (List.range (s.m_ipv4.GetNAddresses i)) s
  exact ⟨h.1, h.2.1⟩

/-- C17 fails on the code: on an interface that is up and has `10.0.5.5` with the all-ones
mask as its only address, `NotifyAddAddress` with that address appends the host route
`10.0.5.5/255.255.255.255`, while `NotifyInterfaceUp` appends nothing. -/
theorem notifyAddAddress_differs_on_ones_mask :
    hostAddressEngine.m_ipv4.IsUp 1 = true ∧
    hostAddressEngine.m_ipv4.GetNAddresses 1 = 1 ∧
    hostAddressEngine.m_ipv4.GetAddress 1 0 = hostAddress ∧
    (NotifyInterfaceUp hostAddressEngine 1).m_networkRoutes = [] ∧
    (NotifyAddAddress hostAddressEngine 1 hostAddress).m_networkRoutes
      = [({ m_dest := 0x0a000505, m_destNetworkMask := 0xffffffff, m_gateway := 0,
            m_interface := 1 }, 0)] := by
  refine ⟨rfl, rfl, rfl, ?_, ?_⟩ <;> decide

/-- The loop of `NotifyRemoveAddress` keeps, in order, the nodes that fail its test. -/
theorem notifyRemoveAddressLoop_eq_filter (interface networkAddress networkMask : Nat)
    (l : List (Ipv4RoutingTableEntry × Nat)) :
    NotifyRemoveAddressLoop interface networkAddress networkMask l
      = l.filter (fun e => decide (¬ (e.1.GetInterface = interface
          ∧ e.1.IsNetwork = true
          ∧ e.1.GetDestNetwork = networkAddress
          ∧ e.1.GetDestNetworkMask = networkMask))) := by
  induction l with
  | nil => rfl
  | cons it rest ih =>
    unfold NotifyRemoveAddressLoop
    by_cases h : it.1.GetInterface = interface ∧ it.1.IsNetwork = true
        ∧ it.1.GetDestNetwork = networkAddress ∧ it.1.GetDestNetworkMask = networkMask
    · rw [if_pos h, ih, List.filter_cons]
      simp [h]
    · rw [if_neg h, ih, List.filter_cons]
      simp [h]

/-- C18: when interface `i` is up, the list after `NotifyRemoveAddress (i, addr)` is the
previous list with exactly the nodes deleted whose route has interface `i`, a mask that is
not all-ones, network `addr AND m` and mask `m`, the others keeping order and metrics; when
`i` is down the list is unchanged. -/
theorem notifyRemoveAddress_postcondition (s : Ipv4StaticRouting) (i : Nat)
    (addr : Ipv4InterfaceAddress) :
    (NotifyRemoveAddress s i addr).m_networkRoutes =
      if s.m_ipv4.IsUp i = true then
        s.m_networkRoutes.filter (fun e => decide (¬ (e.1.m_interface = i
          ∧ e.1.m_destNetworkMask ≠ 0xffffffff
          ∧ e.1.m_dest = addr.m_local &&& addr.m_mask
          ∧ e.1.m_destNetworkMask = addr.m_mask)))
      else s.m_networkRoutes := by
  unfold NotifyRemoveAddress
  by_cases hup : s.m_ipv4.IsUp i = true
  · rw [if_pos hup]
    have : ¬ s.m_ipv4.IsUp i = false := by simp [hup]
    rw [if_neg this]
    simp only
    rw [notifyRemoveAddressLoop_eq_filter]
    apply List.filter_congr
    intro e _
    simp [Ipv4RoutingTableEntry.GetInterface, Ipv4RoutingTableEntry.IsNetwork,
      Ipv4RoutingTableEntry.IsHost, Ipv4RoutingTableEntry.GetDestNetwork,
      Ipv4RoutingTableEntry.GetDestNetworkMask, Ipv4Mask.GetOnes, CombineMask,
      Ipv4InterfaceAddress.GetLocal, Ipv4InterfaceAddress.GetMask]
  · rw [if_neg hup]
    have : s.m_ipv4.IsUp i = false := by simpa using hup
    rw [if_pos this]

/-- C19 fails on the code: the engine is bound with `SetIpv4` to a stack of four interfaces
that are up, with the addresses `10.0.j.1/24`; `10.0.5.5` with the all-ones mask is added to
interface 1 and then removed. `NotifyAddAddress` appends the host route
`10.0.5.5/255.255.255.255`, `NotifyRemoveAddress` skips it because it is not network-typed,
and it stays in the table although no interface has an address with that mask. -/
theorem lifecycle_leaves_host_route :
    (NotifyRemoveAddress
        { NotifyAddAddress
            { SetIpv4 (exampleEngine [] false) exampleStack with
              m_ipv4 := exampleStackWithHostAddress }
            1 hostAddress with m_ipv4 := exampleStack }
        1 hostAddress).m_networkRoutes
      = [ ({ m_dest := 0x0a000000, m_destNetworkMask := 0xffffff00, m_gateway := 0,
             m_interface := 0 }, 0),
          ({ m_dest := 0x0a000100, m_destNetworkMask := 0xffffff00, m_gateway := 0,
             m_interface := 1 }, 0),
          ({ m_dest := 0x0a000200, m_destNetworkMask := 0xffffff00, m_gateway := 0,
             m_interface := 2 }, 0),
          ({ m_dest := 0x0a000300, m_destNetworkMask := 0xffffff00, m_gateway := 0,
             m_interface := 3 }, 0),
          ({ m_dest := 0x0a000505, m_destNetworkMask := 0xffffffff, m_gateway := 0,
             m_interface := 1 }, 0) ] ∧
    ∀ j, j < exampleStack.GetNInterfaces → ∀ k, k < exampleStack.GetNAddresses j →
      (exampleStack.GetAddress j k).GetMask ≠ 0xffffffff := by
  refine ⟨by decide, by decide⟩

/-- The loop of `GetDefaultRoute` carries its invariant from the visited nodes to the whole
list, for metrics within `uint32_t`. -/
theorem getDefaultRouteLoop_inv (l pre : List (Ipv4RoutingTableEntry × Nat))
    (shortest_metric : Nat) (result : Option Ipv4RoutingTableEntry)
    (hm : ∀ p ∈ l, p.2 ≤ UINT32_MAX)
    (hinv : DefaultRouteInv pre shortest_metric result) :
    ∃ final, DefaultRouteInv (pre ++ l) final (GetDefaultRouteLoop l shortest_metric result) := by
  induction l generalizing pre shortest_metric result with
  | nil => exact ⟨shortest_metric, by simpa [GetDefaultRouteLoop] using hinv⟩
  | cons i rest ih =>
    have hrest : ∀ p ∈ rest, p.2 ≤ UINT32_MAX := fun p hp => hm p (List.mem_cons_of_mem _ hp)
    have hi : i.2 ≤ UINT32_MAX := hm i (by simp)
    have happ : pre ++ i :: rest = (pre ++ [i]) ++ rest := by simp
    rw [happ]
    unfold GetDefaultRouteLoop
    simp only
    by_cases h0 : GetPrefixLength i.1.GetDestNetworkMask ≠ 0
    · rw [if_pos h0]
      apply ih (pre ++ [i]) shortest_metric result hrest
      rcases hinv with ⟨h1, h2, h3⟩ | ⟨j, h1, h2, h3, h4⟩
      · refine Or.inl ⟨h1, h2, ?_⟩
        intro q hq
        rcases List.mem_append.1 hq with hq | hq
        · exact h3 q hq
        · simp at hq; subst hq; exact h0
      · refine Or.inr ⟨j, h1, List.mem_append_left _ h2, h3, ?_⟩
        intro q hq hq0
        rcases List.mem_append.1 hq with hq | hq
        · exact h4 q hq hq0
        · simp at hq; subst hq; exact absurd hq0 h0
    · rw [if_neg h0]
      have h0' : GetPrefixLength i.1.GetDestNetworkMask = 0 := by simpa using h0
      by_cases hgt : i.2 > shortest_metric
      · rw [if_pos hgt]
        apply ih (pre ++ [i]) shortest_metric result hrest
        rcases hinv with ⟨_, h2, _⟩ | ⟨j, h1, h2, h3, h4⟩
        · omega
        · refine Or.inr ⟨j, h1, List.mem_append_left _ h2, h3, ?_⟩
          intro q hq hq0
          rcases List.mem_append.1 hq with hq | hq
          · exact h4 q hq hq0
          · simp at hq; subst hq; omega
      · rw [if_neg hgt]
        apply ih (pre ++ [i]) i.2 (some i.1) hrest
        refine Or.inr ⟨i.1, rfl, by simp, h0', ?_⟩
        intro q hq hq0
        rcases List.mem_append.1 hq with hq | hq
        · rcases hinv with ⟨_, _, h3⟩ | ⟨j, _, _, _, h4⟩
          · exact absurd hq0 (h3 q hq)
          · have := h4 q hq hq0; omega
        · simp at hq; subst hq; exact Nat.le_refl _

/-- C20: when some node has mask length 0, `GetDefaultRoute` returns a route of the table of
mask length 0 that stands there with a metric at most the metric of every node of mask
length 0; when no node has mask length 0 it returns the default-constructed entry. -/
theorem getDefaultRoute_least_metric (s : Ipv4StaticRouting) (hm : MetricsInRange s) :
    ((∃ e ∈ s.m_networkRoutes, GetPrefixLength e.1.GetDestNetworkMask = 0) →
      GetPrefixLength (GetDefaultRoute s).GetDestNetworkMask = 0 ∧
      ∃ metric, (GetDefaultRoute s, metric) ∈ s.m_networkRoutes ∧
        ∀ q ∈ s.m_networkRoutes, GetPrefixLength q.1.GetDestNetworkMask = 0 → metric ≤ q.2) ∧
    ((∀ e ∈ s.m_networkRoutes, GetPrefixLength e.1.GetDestNetworkMask ≠ 0) →
      GetDefaultRoute s = Ipv4RoutingTableEntry.emptyEntry) := by
  obtain ⟨final, hinv⟩ := getDefaultRouteLoop_inv s.m_networkRoutes [] UINT32_MAX none hm
    (Or.inl ⟨rfl, rfl, by simp⟩)
  rw [List.nil_append] at hinv
  constructor
  · rintro ⟨e, he, he0⟩
    rcases hinv with ⟨_, _, h3⟩ | ⟨j, h1, h2, h3, h4⟩
    · exact absurd he0 (h3 e he)
    · have hres : GetDefaultRoute s = j := by
        unfold GetDefaultRoute
        rw [h1]
      rw [hres]
      exact ⟨h3, final, h2, h4⟩
  · intro hnone
    rcases hinv with ⟨h1, _, _⟩ | ⟨j, _, h2, h3, _⟩
    · unfold GetDefaultRoute
      rw [h1]
    · exact absurd h3 (hnone _ h2)

/-- C20 on a table with default routes of metrics 7, 3 and 3 and a `/8` route: a default
route of metric 3 is returned. -/
theorem getDefaultRoute_least_metric_witness :
    GetPrefixLength (GetDefaultRoute defaultRoutesEngine).GetDestNetworkMask = 0 ∧
      ∃ metric, (GetDefaultRoute defaultRoutesEngine, metric) ∈ defaultRoutesEngine.m_networkRoutes ∧
        ∀ q ∈ defaultRoutesEngine.m_networkRoutes,
          GetPrefixLength q.1.GetDestNetworkMask = 0 → metric ≤ q.2 :=
  (getDefaultRoute_least_metric defaultRoutesEngine (by decide)).1
    ⟨(Ipv4RoutingTableEntry.CreateNetworkRouteTo 0 0 0xc0a80101 0, 7), by decide, by decide⟩

/-- The loop of `RemoveRoute` erases the node at the distance of the index from the
counter, when there is one. -/
theorem removeRouteLoop_eq (l : List (Ipv4RoutingTableEntry × Nat)) (index tmp : Nat)
    (h1 : tmp ≤ index) (h2 : index - tmp < l.length) :
    RemoveRouteLoop index l tmp = .ok (l.eraseIdx (index - tmp)) := by
  induction l generalizing tmp with
  | nil => simp at h2
  | cons j rest ih =>
    unfold RemoveRouteLoop
    by_cases h : tmp = index
    · rw [if_pos h]
      subst h
      simp
    · rw [if_neg h]
      have h3 : index - tmp = (index - (tmp + 1)) + 1 := by omega
      have h4 : index - (tmp + 1) < rest.length := by
        simp only [List.length_cons] at h2; omega
      rw [ih (tmp + 1) (by omega) h4, h3, List.eraseIdx_cons_succ]

/-- The loop of `RemoveRoute` ends on the assertion when no node is at the index. -/
theorem removeRouteLoop_out_of_range (l : List (Ipv4RoutingTableEntry × Nat))
    (index tmp : Nat) (h1 : tmp ≤ index) (h2 : l.length ≤ index - tmp) :
    RemoveRouteLoop index l tmp = .error Fault.assertFailed := by
  induction l generalizing tmp with
  | nil => rfl
  | cons j rest ih =>
    unfold RemoveRouteLoop
    simp only [List.length_cons] at h2
    have h : ¬ tmp = index := by omega
    rw [if_neg h, ih (tmp + 1) (by omega) (by omega)]

/-- The loop of `GetRoute` returns the route of the node at the distance of the index from
the counter, and ends on the assertion when there is none. -/
theorem getRouteLoop_eq (l : List (Ipv4RoutingTableEntry × Nat)) (index tmp : Nat)
    (h1 : tmp ≤ index) :
    GetRouteLoop index l tmp =
      match l[index - tmp]? with
      | some node => .ok node.1
      | none => .error Fault.assertFailed := by
  induction l generalizing tmp with
  | nil => simp [GetRouteLoop]
  | cons j rest ih =>
    unfold GetRouteLoop
    by_cases h : tmp = index
    · rw [if_pos h]
      subst h
      simp
    · rw [if_neg h]
      have h3 : index - tmp = (index - (tmp + 1)) + 1 := by omega
      rw [ih (tmp + 1) (by omega), h3, List.getElem?_cons_succ]

/-- The loop of `GetMetric` returns the metric of the node at the distance of the index
from the counter, and ends on the assertion when there is none. -/
theorem getMetricLoop_eq (l : List (Ipv4RoutingTableEntry × Nat)) (index tmp : Nat)
    (h1 : tmp ≤ index) :
    GetMetricLoop index l tmp =
      match l[index - tmp]? with
      | some node => .ok node.2
      | none => .error Fault.assertFailed := by
  induction l generalizing tmp with
  | nil => simp [GetMetricLoop]
  | cons j rest ih =>
    unfold GetMetricLoop
    by_cases h : tmp = index
    · rw [if_pos h]
      subst h
      simp
    · rw [if_neg h]
      have h3 : index - tmp = (index - (tmp + 1)) + 1 := by omega
      rw [ih (tmp + 1) (by omega), h3, List.getElem?_cons_succ]

/-- One call in range gives the engine whose list is the replayed list, the rest of the
engine unchanged. -/
theorem applyOp_replayOp (s : Ipv4StaticRouting) (op : TableOp)
    (h : (match op with
          | TableOp.removeRoute index => decide (index < s.m_networkRoutes.length)
          | _ => true) = true) :
    applyOp s op = .ok { s with m_networkRoutes := replayOp s.m_networkRoutes op } := by
  cases op with
  | removeRoute index =>
    simp only [decide_eq_true_eq] at h
    simp only [applyOp, RemoveRoute, replayOp]
    rw [removeRouteLoop_eq s.m_networkRoutes index 0 (Nat.zero_le _) (by simpa using h)]
    rfl
  | addNetworkRouteTo _ _ _ _ _ => rfl
  | addNetworkRouteToInterface _ _ _ _ => rfl
  | addHostRouteTo _ _ _ _ => rfl
  | addHostRouteToInterface _ _ _ => rfl
  | setDefaultRoute _ _ _ => rfl
  | setDefaultMulticastRoute _ => rfl

/-- A sequence of calls in range gives the engine whose list is the replayed list. -/
theorem applyOps_replay (ops : List TableOp) (s : Ipv4StaticRouting)
    (h : replayInRange s.m_networkRoutes ops = true) :
    applyOps s ops = .ok { s with m_networkRoutes := replay s.m_networkRoutes ops } := by
  induction ops generalizing s with
  | nil => rfl
  | cons op rest ih =>
    unfold replayInRange at h
    rw [Bool.and_eq_true] at h
    unfold applyOps
    rw [applyOp_replayOp s op h.1]
    simp only
    rw [ih _ h.2]
    rfl

/-- C21: after a sequence of `AddNetworkRouteTo`, `AddHostRouteTo`, `SetDefaultRoute`,
`SetDefaultMulticastRoute` and in-range `RemoveRoute` calls, the calls all return, the list
of network routes is the replayed list (each add appended at the end, each `RemoveRoute (i)`
deleting position `i`), `GetNRoutes` is its length, and `GetRoute (k)` and `GetMetric (k)`
return the route and the metric of its `k`-th element; a deletion at `i` keeps the elements
before `i` at their index and shifts the later ones down by one. -/
theorem table_is_ordered_list (s : Ipv4StaticRouting) (ops : List TableOp)
    (h : replayInRange s.m_networkRoutes ops = true) :
    ∃ s1, applyOps s ops = .ok s1 ∧
      s1.m_networkRoutes = replay s.m_networkRoutes ops ∧
      GetNRoutes s1 = (replay s.m_networkRoutes ops).length ∧
      (∀ k route metric, (replay s.m_networkRoutes ops)[k]? = some (route, metric) →
        GetRoute s1 k = .ok route ∧ GetMetric s1 k = .ok metric) ∧
      (∀ (l : List (Ipv4RoutingTableEntry × Nat)) (i k : Nat),
        (replayOp l (TableOp.removeRoute i))[k]? = if k < i then l[k]? else l[k + 1]?) := by
  refine ⟨_, applyOps_replay ops s h, rfl, rfl, ?_, ?_⟩
  · intro k route metric hk
    constructor
    · show GetRouteLoop k (replay s.m_networkRoutes ops) 0 = .ok route
      rw [getRouteLoop_eq _ k 0 (Nat.zero_le _), Nat.sub_zero, hk]
    · show GetMetricLoop k (replay s.m_networkRoutes ops) 0 = .ok metric
      rw [getMetricLoop_eq _ k 0 (Nat.zero_le _), Nat.sub_zero, hk]
  · intro l i k
    exact List.getElem?_eraseIdx l i k

/-- C21 on a sequence of three adds, `RemoveRoute (1)`, `SetDefaultMulticastRoute (3)` and
`RemoveRoute (0)` from the empty table. -/
theorem table_is_ordered_list_witness :
    ∃ s1, applyOps (exampleEngine [] false) exampleOps = .ok s1 ∧
      s1.m_networkRoutes = replay (exampleEngine [] false).m_networkRoutes exampleOps ∧
      GetNRoutes s1 = (replay (exampleEngine [] false).m_networkRoutes exampleOps).length ∧
      (∀ k route metric,
        (replay (exampleEngine [] false).m_networkRoutes exampleOps)[k]? = some (route, metric) →
        GetRoute s1 k = .ok route ∧ GetMetric s1 k = .ok metric) ∧
      (∀ (l : List (Ipv4RoutingTableEntry × Nat)) (i k : Nat),
        (replayOp l (TableOp.removeRoute i))[k]? = if k < i then l[k]? else l[k + 1]?) :=
  table_is_ordered_list (exampleEngine [] false) exampleOps (by decide)

/-- The replayed list of the example sequence: the default route, then the default
multicast route. -/
theorem replay_exampleOps :
    replay [] exampleOps =
      [ ({ m_dest := 0, m_destNetworkMask := 0, m_gateway := 0xc0a80101, m_interface := 0 }, 9),
        ({ m_dest := 0xe0000000, m_destNetworkMask := 0xf0000000, m_gateway := 0,
           m_interface := 3 }, 0) ] := by
  decide

/-- C22 fails on the code for `RemoveMulticastRoute (index)`: on the multicast table of
scenario 8, which holds one route, `GetMulticastRoute (1)` ends on its assertion, and on the
empty list of network routes `GetRoute (0)`, `GetMetric (0)` and `RemoveRoute (0)` end on
theirs, but `RemoveMulticastRoute (1)` returns with the table unchanged. -/
theorem removeMulticastRoute_out_of_range_accepted :
    GetNMulticastRoutes anyInputEngine = 1 ∧
    GetNRoutes anyInputEngine = 0 ∧
    GetRoute anyInputEngine 0 = .error Fault.assertFailed ∧
    GetMetric anyInputEngine 0 = .error Fault.assertFailed ∧
    (∃ f, RemoveRoute anyInputEngine 0 = .error f) ∧
    GetMulticastRoute anyInputEngine 1 = .error Fault.assertFailed ∧
    (RemoveMulticastRoute anyInputEngine 1).m_multicastRoutes
      = anyInputEngine.m_multicastRoutes := by
  refine ⟨rfl, rfl, rfl, rfl, ⟨Fault.assertFailed, rfl⟩, rfl, by decide⟩

/-- Membership of the result of the key loop: the loop returns true exactly when some route
passes the key test, then erases the first such route and keeps the others in order;
otherwise it returns false with the list unchanged. -/
theorem removeMulticastRouteKeyLoop_spec (origin group inputInterface : Nat)
    (l : List Ipv4MulticastRoutingTableEntry) :
    ((∀ e ∈ l, ¬ multicastKeyTest origin group inputInterface e) ∧
      RemoveMulticastRouteKeyLoop origin group inputInterface l = (false, l)) ∨
    (∃ pre e post, l = pre ++ e :: post ∧
      (∀ x ∈ pre, ¬ multicastKeyTest origin group inputInterface x) ∧
      multicastKeyTest origin group inputInterface e ∧
      RemoveMulticastRouteKeyLoop origin group inputInterface l = (true, pre ++ post)) := by
  induction l with
  | nil => exact Or.inl ⟨by simp, rfl⟩
  | cons route rest ih =>
    unfold RemoveMulticastRouteKeyLoop
    by_cases h : origin = route.GetOrigin ∧ group = route.GetGroup
        ∧ inputInterface = route.GetInputInterface
    · rw [if_pos h]
      exact Or.inr ⟨[], route, rest, rfl, by simp, h, rfl⟩
    · rw [if_neg h]
      rcases ih with ⟨h1, h2⟩ | ⟨pre, e, post, h1, h2, h3, h4⟩
      · left
        refine ⟨?_, by rw [h2]⟩
        intro x hx
        rcases List.mem_cons.1 hx with hx | hx
        · subst hx; exact h
        · exact h1 x hx
      · right
        refine ⟨route :: pre, e, post, by rw [h1]; rfl, ?_, h3, by rw [h4]; rfl⟩
        intro x hx
        rcases List.mem_cons.1 hx with hx | hx
        · subst hx; exact h
        · exact h2 x hx

/-- C23: `RemoveMulticastRoute (origin, group, inputInterface)` returns true exactly when
some route equals the key on the three fields; it then erases the first such route only,
later duplicates and the other routes keeping their order; when no route equals the key it
returns false and leaves the table unchanged. The network routes are never touched. -/
theorem removeMulticastRouteKey_first_match (s : Ipv4StaticRouting)
    (origin group inputInterface : Nat) :
    ((RemoveMulticastRouteKey s origin group inputInterface).1 = true ↔
      ∃ e ∈ s.m_multicastRoutes,
        origin = e.m_origin ∧ group = e.m_group ∧ inputInterface = e.m_inputInterface) ∧
    ((RemoveMulticastRouteKey s origin group inputInterface).1 = true →
      ∃ pre e post, s.m_multicastRoutes = pre ++ e :: post ∧
        (∀ x ∈ pre, ¬ (origin = x.m_origin ∧ group = x.m_group
          ∧ inputInterface = x.m_inputInterface)) ∧
        (origin = e.m_origin ∧ group = e.m_group ∧ inputInterface = e.m_inputInterface) ∧
        (RemoveMulticastRouteKey s origin group inputInterface).2.m_multicastRoutes
          = pre ++ post) ∧
    ((RemoveMulticastRouteKey s origin group inputInterface).1 = false →
      (RemoveMulticastRouteKey s origin group inputInterface).2.m_multicastRoutes
        = s.m_multicastRoutes) ∧
    (RemoveMulticastRouteKey s origin group inputInterface).2.m_networkRoutes
      = s.m_networkRoutes := by
  have hspec := removeMulticastRouteKeyLoop_spec origin group inputInterface s.m_multicastRoutes
  have hfst : (RemoveMulticastRouteKey s origin group inputInterface).1
      = (RemoveMulticastRouteKeyLoop origin group inputInterface s.m_multicastRoutes).1 := rfl
  have hsnd : (RemoveMulticastRouteKey s origin group inputInterface).2.m_multicastRoutes
      = (RemoveMulticastRouteKeyLoop origin group inputInterface s.m_multicastRoutes).2 := rfl
  have hnet : (RemoveMulticastRouteKey s origin group inputInterface).2.m_networkRoutes
      = s.m_networkRoutes := rfl
  rw [hfst, hsnd]
  rcases hspec with ⟨h1, h2⟩ | ⟨pre, e, post, h1, h2, h3, h4⟩
  · rw [h2]
    refine ⟨?_, ?_, ?_, hnet⟩
    · constructor
      · intro h; exact absurd h (by simp)
      · rintro ⟨e, he, hk⟩; exact absurd hk (h1 e he)
    · intro h; exact absurd h (by simp)
    · intro _; rfl
  · rw [h4]
    refine ⟨?_, ?_, ?_, hnet⟩
    · constructor
      · intro _
        exact ⟨e, by rw [h1]; simp, h3⟩
      · intro _; rfl
    · intro _
      exact ⟨pre, e, post, h1, h2, h3, rfl⟩
    · intro h; exact absurd h (by simp)

/-- C23 on a table holding the key `(10.0.0.7, 224.1.2.3, 1)` at positions 1 and 3: the call
returns true and erases position 1 only. -/
theorem removeMulticastRouteKey_first_match_witness :
    ∃ pre e post, duplicateKeyEngine.m_multicastRoutes = pre ++ e :: post ∧
      (∀ x ∈ pre, ¬ ((0x0a000007 : Nat) = x.m_origin ∧ (0xe0010203 : Nat) = x.m_group
        ∧ (1 : Nat) = x.m_inputInterface)) ∧
      ((0x0a000007 : Nat) = e.m_origin ∧ (0xe0010203 : Nat) = e.m_group
        ∧ (1 : Nat) = e.m_inputInterface) ∧
      (RemoveMulticastRouteKey duplicateKeyEngine 0x0a000007 0xe0010203 1).2.m_multicastRoutes
        = pre ++ post :=
  (removeMulticastRouteKey_first_match duplicateKeyEngine 0x0a000007 0xe0010203 1).2.1
    (by decide)

/-- The table left by the call of the witness of C23: positions 0, 2 and 3 of the table
before, in order. -/
theorem removeMulticastRouteKey_example :
    (RemoveMulticastRouteKey duplicateKeyEngine 0x0a000007 0xe0010203 1).1 = true ∧
    (RemoveMulticastRouteKey duplicateKeyEngine 0x0a000007 0xe0010203 1).2.m_multicastRoutes
      = [ { m_origin := 0x0a000005, m_group := 0xe0010203, m_inputInterface := 1,
            m_outputInterfaces := [2] },
          { m_origin := 0x0a000007, m_group := 0xe0010203, m_inputInterface := 2,
            m_outputInterfaces := [3] },
          { m_origin := 0x0a000007, m_group := 0xe0010203, m_inputInterface := 1,
            m_outputInterfaces := [3] } ] := by
  decide

/-- The loop of `SourceAddressSelection` returns the candidate when no visited address
passes the test. -/
theorem sourceAddressSelectionLoop_none (ipv4 : Ipv4) (interfaceIdx dest candidate : Nat)
    (l : List Nat) (h : ∀ k ∈ l, ¬ sourceTest ipv4 interfaceIdx dest k) :
    SourceAddressSelectionLoop ipv4 interfaceIdx dest candidate l = candidate := by
  induction l with
  | nil => rfl
  | cons i rest ih =>
    unfold SourceAddressSelectionLoop
    have hi : ¬ sourceTest ipv4 interfaceIdx dest i := h i (by simp)
    unfold sourceTest at hi
    simp only
    rw [if_neg hi]
    exact ih (fun k hk => h k (List.mem_cons_of_mem _ hk))

/-- The loop of `SourceAddressSelection` over consecutive indices returns the local address
of the first index that passes the test. -/
theorem sourceAddressSelectionLoop_first (ipv4 : Ipv4) (interfaceIdx dest candidate : Nat)
    (len start k : Nat) (h1 : start ≤ k) (h2 : k < start + len)
    (hk : sourceTest ipv4 interfaceIdx dest k)
    (hbefore : ∀ j, start ≤ j → j < k → ¬ sourceTest ipv4 interfaceIdx dest j) :
    SourceAddressSelectionLoop ipv4 interfaceIdx dest candidate (List.range' start len)
      = (ipv4.GetAddress interfaceIdx k).GetLocal := by
  induction len generalizing start with
  | zero => omega
  | succ n ih =>
    rw [List.range'_succ]
    unfold SourceAddressSelectionLoop
    simp only
    by_cases hs : start = k
    · subst hs
      unfold sourceTest at hk
      rw [if_pos hk]
    · have hns : ¬ sourceTest ipv4 interfaceIdx dest start :=
        hbefore start (Nat.le_refl _) (by omega)
      unfold sourceTest at hns
      rw [if_neg hns]
      exact ih (start + 1) (by omega) (by omega) (fun j hj1 hj2 => hbefore j (by omega) hj2)

/-- The loop of `SourceAddressSelection` returns the candidate or the local address of a
visited address. -/
theorem sourceAddressSelectionLoop_mem (ipv4 : Ipv4) (interfaceIdx dest candidate : Nat)
    (l : List Nat) :
    SourceAddressSelectionLoop ipv4 interfaceIdx dest candidate l = candidate ∨
      ∃ k ∈ l, SourceAddressSelectionLoop ipv4 interfaceIdx dest candidate l
        = (ipv4.GetAddress interfaceIdx k).GetLocal := by
  induction l with
  | nil => exact Or.inl rfl
  | cons i rest ih =>
    unfold SourceAddressSelectionLoop
    simp only
    by_cases hi : sourceTest ipv4 interfaceIdx dest i
    · unfold sourceTest at hi
      rw [if_pos hi]
      exact Or.inr ⟨i, by simp, rfl⟩
    · unfold sourceTest at hi
      rw [if_neg hi]
      rcases ih with h | ⟨k, hk, h⟩
      · exact Or.inl h
      · exact Or.inr ⟨k, List.mem_cons_of_mem _ hk, h⟩

/-- C24: on an interface with at least one address, `SourceAddressSelection` returns the
only address when there is exactly one; otherwise the local address of the first address, in
order, that is not secondary and is on the network of the destination under its own mask, and
the local address of address 0 when no address is so; the result is the local address of one
of the addresses of the interface. -/
theorem sourceAddressSelection_spec (s : Ipv4StaticRouting) (interfaceIdx dest : Nat)
    (hn : 1 ≤ s.m_ipv4.GetNAddresses interfaceIdx) :
    (s.m_ipv4.GetNAddresses interfaceIdx = 1 →
      SourceAddressSelection s interfaceIdx dest
        = (s.m_ipv4.GetAddress interfaceIdx 0).GetLocal) ∧
    (s.m_ipv4.GetNAddresses interfaceIdx ≠ 1 →
      ∀ k, k < s.m_ipv4.GetNAddresses interfaceIdx →
        ((s.m_ipv4.GetAddress interfaceIdx k).IsSecondary = false ∧
          ((s.m_ipv4.GetAddress interfaceIdx k).GetLocal
              &&& (s.m_ipv4.GetAddress interfaceIdx k).GetMask)
            = (dest &&& (s.m_ipv4.GetAddress interfaceIdx k).GetMask)) →
        (∀ j, j < k →
          ¬ ((s.m_ipv4.GetAddress interfaceIdx j).IsSecondary = false ∧
            ((s.m_ipv4.GetAddress interfaceIdx j).GetLocal
                &&& (s.m_ipv4.GetAddress interfaceIdx j).GetMask)
              = (dest &&& (s.m_ipv4.GetAddress interfaceIdx j).GetMask))) →
        SourceAddressSelection s interfaceIdx dest
          = (s.m_ipv4.GetAddress interfaceIdx k).GetLocal) ∧
    (s.m_ipv4.GetNAddresses interfaceIdx ≠ 1 →
      (∀ k, k < s.m_ipv4.GetNAddresses interfaceIdx →
        ¬ ((s.m_ipv4.GetAddress interfaceIdx k).IsSecondary = false ∧
          ((s.m_ipv4.GetAddress interfaceIdx k).GetLocal
              &&& (s.m_ipv4.GetAddress interfaceIdx k).GetMask)
            = (dest &&& (s.m_ipv4.GetAddress interfaceIdx k).GetMask))) →
      SourceAddressSelection s interfaceIdx dest
        = (s.m_ipv4.GetAddress interfaceIdx 0).GetLocal) ∧
    (∃ k, k < s.m_ipv4.GetNAddresses interfaceIdx ∧
      SourceAddressSelection s interfaceIdx dest
        = (s.m_ipv4.GetAddress interfaceIdx k).GetLocal) := by
  have hloop : s.m_ipv4.GetNAddresses interfaceIdx ≠ 1 →
      SourceAddressSelection s interfaceIdx dest
        = SourceAddressSelectionLoop s.m_ipv4 interfaceIdx dest
            (s.m_ipv4.GetAddress interfaceIdx 0).GetLocal
            (List.range (s.m_ipv4.GetNAddresses interfaceIdx)) := by
    intro h
    unfold SourceAddressSelection
    rw [if_neg h]
  have hone : s.m_ipv4.GetNAddresses interfaceIdx = 1 →
      SourceAddressSelection s interfaceIdx dest
        = (s.m_ipv4.GetAddress interfaceIdx 0).GetLocal := by
    intro h
    unfold SourceAddressSelection
    rw [if_pos h]
  refine ⟨hone, ?_, ?_, ?_⟩
  · intro hne k hk htest hbefore
    rw [hloop hne, List.range_eq_range']
    exact sourceAddressSelectionLoop_first s.m_ipv4 interfaceIdx dest _ _ 0 k (Nat.zero_le _)
      (by omega) ⟨htest.2, htest.1⟩
      (fun j _ hj ht => hbefore j hj ⟨ht.2, ht.1⟩)
  · intro hne hnone
    rw [hloop hne]
    exact sourceAddressSelectionLoop_none s.m_ipv4 interfaceIdx dest _ _
      (fun k hk ht => hnone k (List.mem_range.1 hk) ⟨ht.2, ht.1⟩)
  · by_cases h1 : s.m_ipv4.GetNAddresses interfaceIdx = 1
    · exact ⟨0, by omega, hone h1⟩
    · rw [hloop h1]
      rcases sourceAddressSelectionLoop_mem s.m_ipv4 interfaceIdx dest
          (s.m_ipv4.GetAddress interfaceIdx 0).GetLocal
          (List.range (s.m_ipv4.GetNAddresses interfaceIdx)) with h | ⟨k, hk, h⟩
      · exact ⟨0, by omega, h⟩
      · exact ⟨k, List.mem_range.1 hk, h⟩

/-- C24 on interface 1 of a stack with the addresses `10.0.1.1/24`, the secondary
`192.168.5.1/24` and `192.168.5.2/24`: for the destination `192.168.5.9` the secondary
address is passed over and `192.168.5.2` is returned. -/
theorem sourceAddressSelection_spec_witness :
    SourceAddressSelection multiAddressEngine 1 0xc0a80509
      = (multiAddressEngine.m_ipv4.GetAddress 1 2).GetLocal :=
  (sourceAddressSelection_spec multiAddressEngine 1 0xc0a80509 (by decide)).2.1
    (by decide) 2 (by decide) (by decide) (by decide)

/-- C25 fails on the code: the card is device 0 of its node and is bound by the host stack to
interface 1 (`10.0.0.1/24`), interface 0 being the loopback interface (`127.0.0.1/8`). For
the destination `224.0.0.5` with the card as constraint device, the route has the
destination of the header, gateway `0.0.0.0` and the card as output device, but its source
is `127.0.0.1`, the address of interface `oif->GetIfIndex ()`, not `10.0.0.1`; without a
constraint device the call ends on the assertion. -/
theorem lookupStatic_link_local_source_of_device_index :
    IsLocalMulticast (udpHeaderTo 0xe0000005).GetDestination = true ∧
    loopbackFirstEngine.m_ipv4.GetInterfaceForDevice (some cardDevice) = 1 ∧
    loopbackFirstEngine.m_ipv4.GetNetDevice 1 = some cardDevice ∧
    (loopbackFirstEngine.m_ipv4.GetAddress 1 0).GetLocal = 0x0a000001 ∧
    LookupStatic loopbackFirstEngine (udpHeaderTo 0xe0000005) (udpPacket 0 0) (some cardDevice)
      = .ok (some { m_dest := 0xe0000005, m_source := 0x7f000001, m_gateway := 0,
                    m_outputDevice := some cardDevice }) ∧
    LookupStatic loopbackFirstEngine (udpHeaderTo 0xe0000005) (udpPacket 0 0) none
      = .error Fault.assertFailed := by
  refine ⟨rfl, rfl, rfl, rfl, rfl, rfl⟩

/-- C26: a route returned by the unicast `LookupStatic` for a destination that is not
link-local multicast is built from the selected entry `r` of the table: its destination is
the stored destination of `r`, its gateway the gateway of `r`, its output device the device
of the host stack for the interface index of `r`, and its source is
`SourceAddressSelection` of that interface and the stored destination of `r`. -/
theorem lookupStatic_route_construction (s : Ipv4StaticRouting) (header : Ipv4Header)
    (ipPayload : Packet) (oif : Option NetDevice) (rtentry : Ipv4Route)
    (hlm : IsLocalMulticast header.GetDestination = false)
    (hok : LookupStatic s header ipPayload oif = .ok (some rtentry)) :
    ∃ r, selectRoute s header ipPayload oif = .ok (some r) ∧
      (∃ metric, (r, metric) ∈ s.m_networkRoutes) ∧
      rtentry.m_dest = r.m_dest ∧
      rtentry.m_gateway = r.m_gateway ∧
      rtentry.m_outputDevice = s.m_ipv4.GetNetDevice r.m_interface ∧
      rtentry.m_source = SourceAddressSelection s r.m_interface r.m_dest := by
  unfold LookupStatic at hok
  by_cases hab : s.m_randomEcmpRouting = true ∧ s.m_flowEcmpRouting = true
  · rw [if_pos hab] at hok
    exact absurd hok (by simp)
  · rw [if_neg hab] at hok
    simp only [hlm, Bool.false_eq_true, if_false] at hok
    cases hsel : selectRoute s header ipPayload oif with
    | error f => rw [hsel] at hok; exact absurd hok (by simp)
    | ok o =>
      cases o with
      | none => rw [hsel] at hok; exact absurd hok (by simp)
      | some r =>
        rw [hsel] at hok
        have hrt : makeRoute s r = rtentry := by
          injection hok with h; injection h
        have hmem := selectRoute_mem s header ipPayload oif r hsel
        unfold scanRoutes at hmem
        have htab : ∃ metric, (r, metric) ∈ s.m_networkRoutes := by
          rcases scan_allRoutes_subset _ _ _ _ _ r hmem with h | ⟨q, hq, hqr⟩
          · simp [scanInit] at h
          · exact ⟨q.2, by rw [← hqr]; exact hq⟩
        refine ⟨r, rfl, htab, ?_, ?_, ?_, ?_⟩ <;> rw [← hrt] <;> rfl

/-- C26 at scenario 1: the route for `10.1.2.3` has the destination `10.1.0.0` of the
selected entry, not the destination of the packet. -/
theorem lookupStatic_route_construction_witness :
    ∃ r, selectRoute lpmEngine (udpHeaderTo 0x0a010203) (udpPacket 0 0) none = .ok (some r) ∧
      (∃ metric, (r, metric) ∈ lpmEngine.m_networkRoutes) ∧
      (0x0a010000 : Nat) = r.m_dest ∧
      (0 : Nat) = r.m_gateway ∧
      some (⟨2, 2⟩ : NetDevice) = lpmEngine.m_ipv4.GetNetDevice r.m_interface ∧
      (0x0a000201 : Nat) = SourceAddressSelection lpmEngine r.m_interface r.m_dest :=
  lookupStatic_route_construction lpmEngine (udpHeaderTo 0x0a010203) (udpPacket 0 0) none
    ⟨0x0a010000, 0x0a000201, 0, some ⟨2, 2⟩⟩ rfl rfl

/-- C27 fails on the code: with two default routes of metric 0, via `192.168.1.1` on
interface 0 and then via `192.168.2.1` on interface 1, the lookup for `8.8.8.8` selects the
first one while `GetDefaultRoute` returns the second one. -/
theorem getDefaultRoute_differs_from_lookup_on_tie :
    twoDefaultsEngine.m_networkRoutes
      = [ ({ m_dest := 0, m_destNetworkMask := 0, m_gateway := 0xc0a80101, m_interface := 0 }, 0),
          ({ m_dest := 0, m_destNetworkMask := 0, m_gateway := 0xc0a80201, m_interface := 1 }, 0) ] ∧
    selectRoute twoDefaultsEngine (udpHeaderTo 0x08080808) (udpPacket 0 0) none
      = .ok (some { m_dest := 0, m_destNetworkMask := 0, m_gateway := 0xc0a80101,
                    m_interface := 0 }) ∧
    LookupStatic twoDefaultsEngine (udpHeaderTo 0x08080808) (udpPacket 0 0) none
      = .ok (some { m_dest := 0, m_source := 0x0a000001, m_gateway := 0xc0a80101,
                    m_outputDevice := some ⟨0, 0⟩ }) ∧
    GetDefaultRoute twoDefaultsEngine
      = { m_dest := 0, m_destNetworkMask := 0, m_gateway := 0xc0a80201, m_interface := 1 } := by
  refine ⟨by decide, rfl, rfl, by decide⟩

/-- C28: `HashHeaders` has the same value on a packet and on the packet of the reverse
direction (source and destination addresses swapped, source and destination ports swapped,
same protocol number), hence the index `hash & n` of the flow ECMP choice is the same in
both directions for candidate sets of the same size `n`. -/
theorem hashHeaders_direction_symmetric (header : Ipv4Header) (ipPayload : Packet) :
    HashHeaders (reverseHeader header) (reversePacket ipPayload) = HashHeaders header ipPayload ∧
    ∀ n : Nat,
      HashHeaders (reverseHeader header) (reversePacket ipPayload) &&& n
        = HashHeaders header ipPayload &&& n := by
  have h : HashHeaders (reverseHeader header) (reversePacket ipPayload)
      = HashHeaders header ipPayload := by
    unfold HashHeaders
    simp only [reverseHeader, reversePacket, reverseTransport, Ipv4Header.GetSource,
      Ipv4Header.GetDestination, Ipv4Header.GetProtocol, TransportHeader.GetSourcePort,
      TransportHeader.GetDestinationPort, UDP_PROT_NUMBER, TCP_PROT_NUMBER]
    split_ifs <;> omega
  exact ⟨h, fun n => by rw [h]⟩

end Ipv4StaticRouting

end ns3
